import Mathlib

/-!
Verification of the Festivo booking / RSVP / review subsystem.

The definitions below are a shallow embedding of the JavaScript source:
controllers in src/controllers (rsvpController.js, the booking controller,
the review controller) and the mongoose models (RSVP.js, Review.js, the
booking schema).  Documents are modelled as records, the document store as
lists of records, and each HTTP handler as a function from a database state
and request arguments to a new state paired with a result.  Mongoose
middleware is modelled where the source registers it: document post("save")
hooks run as part of the modelled save, while query-style updates
(findByIdAndUpdate, findByIdAndDelete) do not trigger document middleware,
exactly as in mongoose.  Times are naturals (milliseconds), ids are
naturals, money amounts are integers, rating averages are rationals.
-/

namespace Festivo

/-- Object ids of the document store. -/
abbrev OID := Nat

/-- Typed errors of the spec taxonomy, mapped from the ApiError messages and
status codes used by the controllers.  notFound is every 404; forbidden is
every 403; the 400s are split by message: invalidState for the lifecycle
guards, conflict for the uniqueness guards, capacityExceeded for the message
"Event is at full capacity", alreadyCheckedIn for "Attendee already checked
in", validationErr for "Valid payment amount is required".  serverErr models
a thrown TypeError (a populate that produced null being dereferenced). -/
inductive Err where
  | notFound
  | forbidden
  | invalidState
  | conflict
  | capacityExceeded
  | alreadyCheckedIn
  | validationErr
  | serverErr
deriving DecidableEq, Repr

/-- Result of one controller call: the id of the touched document or an error. -/
inductive Res where
  | ok (i : OID)
  | err (e : Err)
deriving DecidableEq, Repr

/-- Booking status enum of the booking schema. -/
inductive BStatus where
  | pending
  | confirmed
  | inProgress
  | completed
  | cancelled
  | refunded
deriving DecidableEq, Repr

/-- Payment status enum of the booking schema; partPaid stands for the
source string "partial". -/
inductive PayStatus where
  | unpaid
  | partPaid
  | paid
  | refunded
deriving DecidableEq, Repr

/-- RSVP status enum of the rsvp schema. -/
inductive RStatus where
  | going
  | maybe
  | notGoing
  | cancelled
deriving DecidableEq, Repr

/-- Service availability enum of the service schema. -/
inductive Avail where
  | available
  | busy
  | notTakingOrders
deriving DecidableEq, Repr

/-- One entry of the payments array pushed by updatePayment / recordPayment. -/
structure Payment where
  amount : Int
  payMethod : Option String
  transactionId : Option String
  paidAt : Nat
  notes : Option String
deriving DecidableEq, Repr

/-- Booking document: the schema fields plus the payments and totalPaid
fields maintained by the payment controllers. -/
structure Booking where
  id : OID
  event : OID
  service : OID
  organizer : OID
  vendor : OID
  eventDate : Nat
  status : BStatus
  priceAgreed : Int
  payments : List Payment
  totalPaid : Int
  pricePaid : Int
  payMethod : Option String
  transactionId : Option String
  paymentStatus : PayStatus
  notes : Option String
  requirements : Option String
  cancellationReason : Option String
  cancelledBy : Option OID
  cancelledAt : Option Nat
  completedAt : Option Nat
deriving DecidableEq, Repr

/-- Event document, fields as read and written by the controllers and by the
rsvp post-save hook. -/
structure Event where
  id : OID
  organizer : OID
  coOrganizers : List OID
  isPublic : Bool
  date : Nat
  maxAttendees : Option Nat
  currentAttendees : Nat
  rsvpCount : Nat
deriving DecidableEq, Repr

/-- RSVP document of the rsvp schema. -/
structure RSVP where
  id : OID
  event : OID
  attendee : OID
  status : RStatus
  guestsCount : Nat
  checkedIn : Bool
  checkedInAt : Option Nat
  checkInCode : String
  attended : Bool
deriving DecidableEq, Repr

/-- Service document, fields used by the booking and review flows. -/
structure Service where
  id : OID
  provider : OID
  availability : Avail
  ratingAverage : Rat
  totalRatings : Nat
  totalBookings : Nat
  completedBookings : Nat
deriving DecidableEq, Repr

/-- Review document of the review schema. -/
structure Review where
  id : OID
  booking : OID
  service : OID
  vendor : OID
  reviewer : OID
  event : OID
  rating : Nat
  reviewText : String
  isApproved : Bool
  isFlagged : Bool
  createdAt : Nat
deriving DecidableEq, Repr

/-- User document, the aggregate and gamification fields touched here. -/
structure User where
  id : OID
  ratingAverage : Rat
  totalRatings : Nat
  xpPoints : Nat
deriving DecidableEq, Repr

/-- One dispatched notification (Notification.createNotification). -/
structure Notif where
  recipient : OID
  kind : String
  title : String
deriving DecidableEq, Repr

/-- The document store: one list per collection, plus a counter providing
fresh ids and the list of dispatched notifications. -/
structure DB where
  events : List Event
  users : List User
  services : List Service
  bookings : List Booking
  rsvps : List RSVP
  reviews : List Review
  notifs : List Notif
  nextId : OID
deriving DecidableEq, Repr

def DB.findEvent (db : DB) (i : OID) : Option Event :=
  db.events.find? (fun e => e.id == i)

def DB.findUser (db : DB) (i : OID) : Option User :=
  db.users.find? (fun u => u.id == i)

def DB.findService (db : DB) (i : OID) : Option Service :=
  db.services.find? (fun s => s.id == i)

def DB.findBooking (db : DB) (i : OID) : Option Booking :=
  db.bookings.find? (fun b => b.id == i)

def DB.findRSVP (db : DB) (i : OID) : Option RSVP :=
  db.rsvps.find? (fun r => r.id == i)

def DB.findReview (db : DB) (i : OID) : Option Review :=
  db.reviews.find? (fun r => r.id == i)

def DB.setEvent (db : DB) (i : OID) (f : Event → Event) : DB :=
  { db with events := db.events.map (fun e => if e.id == i then f e else e) }

def DB.setUser (db : DB) (i : OID) (f : User → User) : DB :=
  { db with users := db.users.map (fun u => if u.id == i then f u else u) }

def DB.setService (db : DB) (i : OID) (f : Service → Service) : DB :=
  { db with services := db.services.map (fun s => if s.id == i then f s else s) }

def DB.setBooking (db : DB) (i : OID) (f : Booking → Booking) : DB :=
  { db with bookings := db.bookings.map (fun b => if b.id == i then f b else b) }

def DB.setRSVP (db : DB) (i : OID) (f : RSVP → RSVP) : DB :=
  { db with rsvps := db.rsvps.map (fun r => if r.id == i then f r else r) }

def DB.setReview (db : DB) (i : OID) (f : Review → Review) : DB :=
  { db with reviews := db.reviews.map (fun r => if r.id == i then f r else r) }

/-- Notification.createNotification: purely additive. -/
def notify (db : DB) (recipient : OID) (kind title : String) : DB :=
  { db with notifs := db.notifs ++ [{ recipient := recipient, kind := kind, title := title }] }

/-- JavaScript truthiness of the optional numeric field event.maxAttendees:
absent and 0 are falsy, any other number is truthy. -/
def maxSet (m : Option Nat) : Bool :=
  match m with
  | none => false
  | some v => v != 0

/-- Capacity guard of createRSVP, the source line
if (event.maxAttendees and event.currentAttendees + 1 + guestsCount > event.maxAttendees). -/
def capHit (m : Option Nat) (n : Nat) : Bool :=
  maxSet m && n > m.getD 0

/-- Capacity guard of updateRSVP over an integer candidate total. -/
def capHitI (m : Option Nat) (n : Int) : Bool :=
  maxSet m && n > (m.getD 0 : Nat)

/-- Number of RSVP documents of an event with status going: the source
countDocuments({event, status: going}) of the rsvp post-save hook.  Note
that it counts documents, not attendees plus guests. -/
def goingCount (db : DB) (eventId : OID) : Nat :=
  (db.rsvps.filter (fun r => r.event == eventId && r.status == RStatus.going)).length

/-- Sum of (1 + guestsCount) over the going RSVPs of an event: the quantity
the capacity invariant of the spec is about. -/
def goingSum (db : DB) (eventId : OID) : Nat :=
  ((db.rsvps.filter (fun r => r.event == eventId && r.status == RStatus.going)).map
    (fun r => 1 + r.guestsCount)).sum

/-- Post-save hook of the rsvp schema: recount the going RSVP documents of
the event and store the count in both currentAttendees and rsvpCount. -/
def rsvpPostSave (db : DB) (eventId : OID) : DB :=
  let c := goingCount db eventId
  db.setEvent eventId (fun e => { e with currentAttendees := c, rsvpCount := c })

/-- Uppercasing of a string, character by character: the toUpperCase call
of checkInByCode. -/
def upperStr (s : String) : String := ⟨s.data.map Char.toUpper⟩

/-- Check-in code derived at RSVP creation from the event and attendee ids
(pre-save hook of the rsvp schema). -/
def mkCheckInCode (eventId attendee : OID) : String :=
  toString eventId ++ "-" ++ toString attendee

/-- Sum of the amounts of the payments array, the reduce of the payment
controllers. -/
def paymentsTotal (l : List Payment) : Int :=
  (l.map (fun p => p.amount)).sum

/-- Payment status recomputation shared by updatePayment and recordPayment:
paid when the total reaches priceAgreed, partial when the total is positive,
otherwise the previous value is kept (there is no else branch resetting it
to unpaid in the source). -/
def payStatusOf (total priceAgreed : Int) (prev : PayStatus) : PayStatus :=
  if total ≥ priceAgreed then PayStatus.paid
  else if total > 0 then PayStatus.partPaid
  else prev

/-- Rounding to one decimal, Math.round(x * 10) / 10.  The Mathlib round
rounds halves up, as Math.round does. -/
def round1 (q : Rat) : Rat :=
  ((round (q * 10) : Int) : Rat) / 10

/-- Average rating of a list of reviews as a rational. -/
def ratingAvg (l : List Review) : Rat :=
  ((l.map (fun r => (r.rating : Rat))).sum) / (l.length : Rat)

/-- Approved reviews of a service, the match stage of the aggregation in
Review.updateServiceRating. -/
def approvedReviewsFor (db : DB) (serviceId : OID) : List Review :=
  db.reviews.filter (fun r => r.service == serviceId && r.isApproved)

/-- Review.updateVendorRating: average over the approved reviews of all
services of the vendor; when that set is empty the user document is left
untouched (the source has no else branch). -/
def updateVendorRatingFn (db : DB) (vendorId : OID) : DB :=
  let sids := (db.services.filter (fun s => s.provider == vendorId)).map (fun s => s.id)
  let revs := db.reviews.filter (fun r => sids.contains r.service && r.isApproved)
  if revs.length > 0 then
    db.setUser vendorId (fun u =>
      { u with ratingAverage := round1 (ratingAvg revs), totalRatings := revs.length })
  else db

/-- Review.updateServiceRating: recompute ratingAverage and totalRatings of
the service from its approved reviews (0 and 0 when there are none), then
cascade to the vendor aggregates. -/
def updateServiceRatingFn (db : DB) (serviceId : OID) : DB :=
  let revs := approvedReviewsFor db serviceId
  let db1 :=
    if revs.length > 0 then
      db.setService serviceId (fun s =>
        { s with ratingAverage := round1 (ratingAvg revs), totalRatings := revs.length })
    else
      db.setService serviceId (fun s => { s with ratingAverage := 0, totalRatings := 0 })
  match db1.findService serviceId with
  | some s => updateVendorRatingFn db1 s.provider
  | none => db1

/-- createRSVP (POST /rsvps, the upsert entry point).  Looks up the event,
applies the capacity guard currentAttendees + 1 + guestsCount > maxAttendees
regardless of the requested status and of any existing RSVP, then updates
the existing RSVP of (event, caller) in place or creates a new one; the save
triggers the recount hook; a newly created going RSVP notifies the
organizer. -/
def createRSVP (db : DB) (caller eventId : OID) (status : RStatus) (guests : Nat) :
    DB × Res :=
  match db.findEvent eventId with
  | none => (db, Res.err Err.notFound)
  | some ev =>
    if capHit ev.maxAttendees (ev.currentAttendees + 1 + guests) then
      (db, Res.err Err.capacityExceeded)
    else
      match db.rsvps.find? (fun r => r.event == eventId && r.attendee == caller) with
      | some r0 =>
        let db1 := db.setRSVP r0.id (fun r => { r with status := status, guestsCount := guests })
        (rsvpPostSave db1 eventId, Res.ok r0.id)
      | none =>
        let rid := db.nextId
        let newR : RSVP :=
          { id := rid, event := eventId, attendee := caller, status := status,
            guestsCount := guests, checkedIn := false, checkedInAt := none,
            checkInCode := mkCheckInCode eventId caller, attended := false }
        let db1 := { db with rsvps := db.rsvps ++ [newR], nextId := db.nextId + 1 }
        let db2 := rsvpPostSave db1 eventId
        let db3 :=
          if status == RStatus.going then
            notify db2 ev.organizer "rsvp" "New RSVP"
          else db2
        (db3, Res.ok rid)

/-- Difference of attendee totals computed by updateRSVP: the source lines
oldTotal (1 + guestsCount when the stored status is going, else 0),
newTotal (1 + requested guestsCount when the requested status is going,
treating an absent guestsCount as 0, else 0) and diff = newTotal −
oldTotal. -/
def rsvpDelta (r : RSVP) (status : Option RStatus) (guests : Option Nat) : Int :=
  let oldTotal : Int := if r.status == RStatus.going then 1 + r.guestsCount else 0
  let newTotal : Int := if status == some RStatus.going then 1 + (guests.getD 0) else 0
  newTotal - oldTotal

/-- updateRSVP (PUT /rsvps/:id).  The caller must be the attendee; the delta
of 1 + guestsCount totals is computed treating a missing status as a move
out of going; a positive delta is checked against capacity; the RSVP is
saved (running the recount hook) and, when the delta is nonzero, the stale
event document read at the start has its currentAttendees bumped by the
delta and is saved, overwriting the recount of the hook. -/
def updateRSVP (db : DB) (caller rsvpId : OID) (status : Option RStatus)
    (guests : Option Nat) : DB × Res :=
  match db.findRSVP rsvpId with
  | none => (db, Res.err Err.notFound)
  | some r =>
    if r.attendee != caller then (db, Res.err Err.forbidden)
    else
      match db.findEvent r.event with
      | none => (db, Res.err Err.notFound)
      | some ev =>
        let diff := rsvpDelta r status guests
        if diff > 0 && capHitI ev.maxAttendees ((ev.currentAttendees : Int) + diff) then
          (db, Res.err Err.capacityExceeded)
        else
          let db1 := db.setRSVP rsvpId (fun x =>
            { x with status := status.getD x.status, guestsCount := guests.getD x.guestsCount })
          let db2 := rsvpPostSave db1 r.event
          let db3 :=
            if diff != 0 then
              db2.setEvent r.event (fun e =>
                { e with currentAttendees := (max 0 ((ev.currentAttendees : Int) + diff)).toNat })
            else db2
          (db3, Res.ok rsvpId)

/-- cancelRSVP (DELETE /rsvps/:id): attendee only; sets status to cancelled
and saves, which runs the recount hook. -/
def cancelRSVP (db : DB) (caller rsvpId : OID) : DB × Res :=
  match db.findRSVP rsvpId with
  | none => (db, Res.err Err.notFound)
  | some r =>
    if r.attendee != caller then (db, Res.err Err.forbidden)
    else
      let db1 := db.setRSVP rsvpId (fun x => { x with status := RStatus.cancelled })
      (rsvpPostSave db1 r.event, Res.ok rsvpId)

/-- checkInAttendee (POST /rsvps/:id/check-in): organizer or co-organizer
only.  The source has no already-checked-in guard on this path: it
unconditionally sets checkedIn and overwrites checkedInAt with now. -/
def checkInAttendee (db : DB) (caller rsvpId : OID) (now : Nat) : DB × Res :=
  match db.findRSVP rsvpId with
  | none => (db, Res.err Err.notFound)
  | some r =>
    match db.findEvent r.event with
    | none => (db, Res.err Err.serverErr)
    | some ev =>
      if ev.organizer == caller || ev.coOrganizers.contains caller then
        let db1 := db.setRSVP rsvpId (fun x =>
          { x with checkedIn := true, checkedInAt := some now })
        (rsvpPostSave db1 r.event, Res.ok rsvpId)
      else (db, Res.err Err.forbidden)

/-- checkInByCode (POST /rsvps/check-in-code): organizer or co-organizer
only; looks the RSVP up by (event, uppercased code); fails alreadyCheckedIn
when checkedIn is already true, otherwise sets checkedIn and checkedInAt. -/
def checkInByCode (db : DB) (caller eventId : OID) (code : String) (now : Nat) :
    DB × Res :=
  match db.findEvent eventId with
  | none => (db, Res.err Err.notFound)
  | some ev =>
    if ev.organizer == caller || ev.coOrganizers.contains caller then
      match db.rsvps.find? (fun r => r.event == eventId && r.checkInCode == upperStr code) with
      | none => (db, Res.err Err.notFound)
      | some r =>
        if r.checkedIn then (db, Res.err Err.alreadyCheckedIn)
        else
          let db1 := db.setRSVP r.id (fun x =>
            { x with checkedIn := true, checkedInAt := some now })
          (rsvpPostSave db1 eventId, Res.ok r.id)
    else (db, Res.err Err.forbidden)

/-- Active booking of an (event, service) pair: status not in
{cancelled, refunded}, the $nin filter of createBooking. -/
def activeForPair (b : Booking) (eventId serviceId : OID) : Bool :=
  b.event == eventId && b.service == serviceId &&
    !(b.status == BStatus.cancelled || b.status == BStatus.refunded)

/-- createBooking (POST /bookings).  Event and service must exist, the
caller must be the event organizer, the service must be taking orders and no
active booking for the pair may exist; then a pending booking is created
(vendor taken from the service provider), the booking post-save hook
increments the totalBookings counter of the service, and the vendor is
notified. -/
def createBooking (db : DB) (caller eventId serviceId : OID)
    (eventDate : Option Nat) (priceAgreed : Int) (notes requirements : Option String) :
    DB × Res :=
  match db.findEvent eventId with
  | none => (db, Res.err Err.notFound)
  | some ev =>
    match db.findService serviceId with
    | none => (db, Res.err Err.notFound)
    | some sv =>
      if ev.organizer != caller then (db, Res.err Err.forbidden)
      else if sv.availability == Avail.notTakingOrders then (db, Res.err Err.invalidState)
      else if db.bookings.any (fun b => activeForPair b eventId serviceId) then
        (db, Res.err Err.conflict)
      else
        let bid := db.nextId
        let newB : Booking :=
          { id := bid, event := eventId, service := serviceId, organizer := caller,
            vendor := sv.provider, eventDate := eventDate.getD ev.date,
            status := BStatus.pending, priceAgreed := priceAgreed, payments := [],
            totalPaid := 0, pricePaid := 0, payMethod := none, transactionId := none,
            paymentStatus := PayStatus.unpaid, notes := notes,
            requirements := requirements, cancellationReason := none,
            cancelledBy := none, cancelledAt := none, completedAt := none }
        let db1 := { db with bookings := db.bookings ++ [newB], nextId := db.nextId + 1 }
        let db2 := db1.setService serviceId (fun s =>
          { s with totalBookings := s.totalBookings + 1 })
        (notify db2 sv.provider "booking" "New Booking Request", Res.ok bid)

/-- updateBooking (PUT /bookings/:id): organizer only, pending only; a query
style findByIdAndUpdate of priceAgreed, notes and requirements, which runs
no document middleware. -/
def updateBooking (db : DB) (caller bookingId : OID) (priceAgreed : Option Int)
    (notes requirements : Option String) : DB × Res :=
  match db.findBooking bookingId with
  | none => (db, Res.err Err.notFound)
  | some b =>
    if b.organizer != caller then (db, Res.err Err.forbidden)
    else if b.status != BStatus.pending then (db, Res.err Err.invalidState)
    else
      let db1 := db.setBooking bookingId (fun x =>
        { x with priceAgreed := priceAgreed.getD x.priceAgreed,
                 notes := if notes.isSome then notes else x.notes,
                 requirements := if requirements.isSome then requirements else x.requirements })
      (db1, Res.ok bookingId)

/-- confirmBooking (POST /bookings/:id/confirm): vendor only, from pending
only; sets status confirmed and notifies the organizer. -/
def confirmBooking (db : DB) (caller bookingId : OID) : DB × Res :=
  match db.findBooking bookingId with
  | none => (db, Res.err Err.notFound)
  | some b =>
    if b.vendor != caller then (db, Res.err Err.forbidden)
    else if b.status != BStatus.pending then (db, Res.err Err.invalidState)
    else
      let db1 := db.setBooking bookingId (fun x => { x with status := BStatus.confirmed })
      (notify db1 b.organizer "booking" "Booking Confirmed", Res.ok bookingId)

/-- cancelBooking (POST /bookings/:id/cancel): organizer or vendor; the only
state guard is status equal to completed; sets status cancelled together
with the cancellation metadata and notifies the other party. -/
def cancelBooking (db : DB) (caller bookingId : OID) (reason : Option String)
    (now : Nat) : DB × Res :=
  match db.findBooking bookingId with
  | none => (db, Res.err Err.notFound)
  | some b =>
    if b.organizer != caller && b.vendor != caller then (db, Res.err Err.forbidden)
    else if b.status == BStatus.completed then (db, Res.err Err.invalidState)
    else
      let db1 := db.setBooking bookingId (fun x =>
        { x with status := BStatus.cancelled, cancellationReason := reason,
                 cancelledBy := some caller, cancelledAt := some now })
      let other := if b.organizer == caller then b.vendor else b.organizer
      (notify db1 other "booking" "Booking Cancelled", Res.ok bookingId)

/-- completeBooking (POST /bookings/:id/complete): organizer only, from
confirmed or in progress; sets status completed and completedAt; the booking
post-save hook increments the completedBookings counter of the service; the
vendor is notified. -/
def completeBooking (db : DB) (caller bookingId : OID) (now : Nat) : DB × Res :=
  match db.findBooking bookingId with
  | none => (db, Res.err Err.notFound)
  | some b =>
    if b.organizer != caller then (db, Res.err Err.forbidden)
    else if b.status != BStatus.confirmed && b.status != BStatus.inProgress then
      (db, Res.err Err.invalidState)
    else
      let db1 := db.setBooking bookingId (fun x =>
        { x with status := BStatus.completed, completedAt := some now })
      let db2 := db1.setService b.service (fun s =>
        { s with completedBookings := s.completedBookings + 1 })
      (notify db2 b.vendor "booking" "Booking Completed", Res.ok bookingId)

/-- updatePayment (POST /bookings/:id/payment), the organizer entry point.
No validation of the amount is performed: the payment entry is pushed as
given, totalPaid is recomputed as the sum of the payments array, pricePaid
mirrors it, and paymentStatus is recomputed by payStatusOf; the vendor is
notified. -/
def updatePayment (db : DB) (caller bookingId : OID) (amount : Int)
    (payMethod transactionId notes : Option String) (now : Nat) : DB × Res :=
  match db.findBooking bookingId with
  | none => (db, Res.err Err.notFound)
  | some b =>
    if b.organizer != caller then (db, Res.err Err.forbidden)
    else
      let p : Payment :=
        { amount := amount, payMethod := payMethod, transactionId := transactionId,
          paidAt := now, notes := notes }
      let ps := b.payments ++ [p]
      let total := paymentsTotal ps
      let db1 := db.setBooking bookingId (fun x =>
        { x with payments := ps, totalPaid := total, pricePaid := total,
                 payMethod := payMethod,
                 transactionId := if transactionId.isSome then transactionId
                                  else x.transactionId,
                 paymentStatus := payStatusOf total x.priceAgreed x.paymentStatus })
      (notify db1 b.vendor "payment" "Payment Received", Res.ok bookingId)

/-- recordPayment (PUT /bookings/:id/record-payment), the vendor entry
point.  Rejects a missing, zero or negative amount with a validation error
before anything else; then behaves like updatePayment except that the
caller must be the vendor, the payment method defaults to other, the top
level payMethod and transactionId fields are not touched, and the organizer
is notified. -/
def recordPayment (db : DB) (caller bookingId : OID) (amount : Int)
    (payMethod transactionId notes : Option String) (now : Nat) : DB × Res :=
  if amount ≤ 0 then (db, Res.err Err.validationErr)
  else
    match db.findBooking bookingId with
    | none => (db, Res.err Err.notFound)
    | some b =>
      if b.vendor != caller then (db, Res.err Err.forbidden)
      else
        let p : Payment :=
          { amount := amount, payMethod := some (payMethod.getD "other"),
            transactionId := transactionId, paidAt := now, notes := notes }
        let ps := b.payments ++ [p]
        let total := paymentsTotal ps
        let db1 := db.setBooking bookingId (fun x =>
          { x with payments := ps, totalPaid := total, pricePaid := total,
                   paymentStatus := payStatusOf total x.priceAgreed x.paymentStatus })
        (notify db1 b.organizer "payment" "Payment Recorded", Res.ok bookingId)

/-- createReview (POST /reviews).  Booking must exist, the caller must be
its organizer, the booking must be completed and no review for the booking
may exist; then the review is created approved by default, the review
post-save hook runs updateServiceRating (isNew), the vendor is notified and
the reviewer is awarded 10 xp. -/
def createReview (db : DB) (caller bookingId : OID) (rating : Nat)
    (reviewText : String) (now : Nat) : DB × Res :=
  match db.findBooking bookingId with
  | none => (db, Res.err Err.notFound)
  | some b =>
    if b.organizer != caller then (db, Res.err Err.forbidden)
    else if b.status != BStatus.completed then (db, Res.err Err.invalidState)
    else if db.reviews.any (fun r => r.booking == bookingId) then
      (db, Res.err Err.conflict)
    else
      let rid := db.nextId
      let newR : Review :=
        { id := rid, booking := bookingId, service := b.service, vendor := b.vendor,
          reviewer := caller, event := b.event, rating := rating,
          reviewText := reviewText, isApproved := true, isFlagged := false,
          createdAt := now }
      let db1 := { db with reviews := db.reviews ++ [newR], nextId := db.nextId + 1 }
      let db2 := updateServiceRatingFn db1 b.service
      let db3 := notify db2 b.vendor "review" "New Review"
      let db4 := db3.setUser caller (fun u => { u with xpPoints := u.xpPoints + 10 })
      (db4, Res.ok rid)

/-- updateReview (PUT /reviews/:id): reviewer only, within 7 days of
creation; a query style findByIdAndUpdate of rating and text.  Being a
query update it runs no document middleware, so the save hook of the review
schema does not fire and the service aggregates are not recomputed. -/
def updateReview (db : DB) (caller reviewId : OID) (rating : Option Nat)
    (reviewText : Option String) (now : Nat) : DB × Res :=
  match db.findReview reviewId with
  | none => (db, Res.err Err.notFound)
  | some r =>
    if r.reviewer != caller then (db, Res.err Err.forbidden)
    else if now - r.createdAt > 7 * 86400000 then (db, Res.err Err.invalidState)
    else
      let db1 := db.setReview reviewId (fun x =>
        { x with rating := rating.getD x.rating,
                 reviewText := reviewText.getD x.reviewText })
      (db1, Res.ok reviewId)

/-- deleteReview (DELETE /reviews/:id): reviewer or admin; a query style
findByIdAndDelete, which does not fire the deleteOne document middleware of
the review schema, so no aggregate recompute happens. -/
def deleteReview (db : DB) (caller : OID) (isAdmin : Bool) (reviewId : OID) :
    DB × Res :=
  match db.findReview reviewId with
  | none => (db, Res.err Err.notFound)
  | some r =>
    if r.reviewer != caller && !isAdmin then (db, Res.err Err.forbidden)
    else
      ({ db with reviews := db.reviews.filter (fun x => x.id != reviewId) },
       Res.ok reviewId)

/-- moderateReview (PUT /reviews/:id/moderate, admin route): a query style
findByIdAndUpdate of isApproved (clearing isFlagged); no document
middleware runs, so no aggregate recompute happens; a rejection notifies
the reviewer. -/
def moderateReview (db : DB) (reviewId : OID) (isApproved : Bool) : DB × Res :=
  match db.findReview reviewId with
  | none => (db, Res.err Err.notFound)
  | some r =>
    let db1 := db.setReview reviewId (fun x =>
      { x with isApproved := isApproved, isFlagged := false })
    let db2 := if !isApproved then notify db1 r.reviewer "system" "Review Rejected" else db1
    (db2, Res.ok reviewId)

/-- Syntax of the modelled mutating operations, used to quantify over every
operation at once. -/
inductive Op where
  | createRSVP (caller eventId : OID) (status : RStatus) (guests : Nat)
  | updateRSVP (caller rsvpId : OID) (status : Option RStatus) (guests : Option Nat)
  | cancelRSVP (caller rsvpId : OID)
  | checkInAttendee (caller rsvpId : OID) (now : Nat)
  | checkInByCode (caller eventId : OID) (code : String) (now : Nat)
  | createBooking (caller eventId serviceId : OID) (eventDate : Option Nat)
      (priceAgreed : Int) (notes requirements : Option String)
  | updateBooking (caller bookingId : OID) (priceAgreed : Option Int)
      (notes requirements : Option String)
  | confirmBooking (caller bookingId : OID)
  | cancelBooking (caller bookingId : OID) (reason : Option String) (now : Nat)
  | completeBooking (caller bookingId : OID) (now : Nat)
  | updatePayment (caller bookingId : OID) (amount : Int)
      (payMethod transactionId notes : Option String) (now : Nat)
  | recordPayment (caller bookingId : OID) (amount : Int)
      (payMethod transactionId notes : Option String) (now : Nat)
  | createReview (caller bookingId : OID) (rating : Nat) (reviewText : String) (now : Nat)
  | updateReview (caller reviewId : OID) (rating : Option Nat)
      (reviewText : Option String) (now : Nat)
  | deleteReview (caller : OID) (isAdmin : Bool) (reviewId : OID)
  | moderateReview (reviewId : OID) (isApproved : Bool)
deriving DecidableEq, Repr

/-- Interpreter dispatching an operation to its controller function. -/
def runOp (db : DB) : Op → DB × Res
  | Op.createRSVP c e s g => createRSVP db c e s g
  | Op.updateRSVP c r s g => updateRSVP db c r s g
  | Op.cancelRSVP c r => cancelRSVP db c r
  | Op.checkInAttendee c r n => checkInAttendee db c r n
  | Op.checkInByCode c e k n => checkInByCode db c e k n
  | Op.createBooking c e s d p no rq => createBooking db c e s d p no rq
  | Op.updateBooking c b p no rq => updateBooking db c b p no rq
  | Op.confirmBooking c b => confirmBooking db c b
  | Op.cancelBooking c b r n => cancelBooking db c b r n
  | Op.completeBooking c b n => completeBooking db c b n
  | Op.updatePayment c b a m t no n => updatePayment db c b a m t no n
  | Op.recordPayment c b a m t no n => recordPayment db c b a m t no n
  | Op.createReview c b r t n => createReview db c b r t n
  | Op.updateReview c r ra t n => updateReview db c r ra t n
  | Op.deleteReview c ad r => deleteReview db c ad r
  | Op.moderateReview r a => moderateReview db r a

/-- Event with the given id, organizer, capacity and stored attendee count,
remaining fields at their schema defaults. -/
def mkEvent (i org : OID) (maxA : Option Nat) (cur : Nat) : Event :=
  { id := i, organizer := org, coOrganizers := [], isPublic := true, date := 0,
    maxAttendees := maxA, currentAttendees := cur, rsvpCount := cur }

/-- Service with the given id and provider, remaining fields at their schema
defaults. -/
def mkService (i prov : OID) : Service :=
  { id := i, provider := prov, availability := Avail.available, ratingAverage := 0,
    totalRatings := 0, totalBookings := 0, completedBookings := 0 }

/-- Booking with the given references, price and status, payment fields at
their initial values. -/
def mkBooking (i e s org vend : OID) (price : Int) (st : BStatus) : Booking :=
  { id := i, event := e, service := s, organizer := org, vendor := vend,
    eventDate := 0, status := st, priceAgreed := price, payments := [],
    totalPaid := 0, pricePaid := 0, payMethod := none, transactionId := none,
    paymentStatus := PayStatus.unpaid, notes := none, requirements := none,
    cancellationReason := none, cancelledBy := none, cancelledAt := none,
    completedAt := none }

/-- RSVP with the given references, status and guests, check-in fields at
their defaults. -/
def mkRSVP (i e a : OID) (st : RStatus) (g : Nat) : RSVP :=
  { id := i, event := e, attendee := a, status := st, guestsCount := g,
    checkedIn := false, checkedInAt := none, checkInCode := mkCheckInCode e a,
    attended := false }

/-- User with the given id and zeroed aggregates. -/
def mkUser (i : OID) : User :=
  { id := i, ratingAverage := 0, totalRatings := 0, xpPoints := 0 }

/-- Approved review with the given references and rating. -/
def mkReview (i bk s vend rev : OID) (rating : Nat) : Review :=
  { id := i, booking := bk, service := s, vendor := vend, reviewer := rev,
    event := 0, rating := rating, reviewText := "", isApproved := true,
    isFlagged := false, createdAt := 0 }

/-- Empty store with the id counter at 100. -/
def emptyDB : DB :=
  { events := [], users := [], services := [], bookings := [], rsvps := [],
    reviews := [], notifs := [], nextId := 100 }

/-- Payment entry as pushed by the payment controllers. -/
def mkPayment (amount : Int) (m t no : Option String) (now : Nat) : Payment :=
  { amount := amount, payMethod := m, transactionId := t, paidAt := now, notes := no }

/-- Store with one pending booking, for the payment scenarios. -/
def dbPay : DB :=
  { emptyDB with bookings := [mkBooking 30 10 20 1 2 10 BStatus.pending] }

/-- Store with one full event (capacity 1, one going RSVP), for the capacity
scenarios. -/
def dbCap : DB :=
  { emptyDB with events := [mkEvent 10 1 (some 1) 1],
                 rsvps := [mkRSVP 40 10 3 RStatus.going 0] }

/-- Store with one already checked-in RSVP, for the check-in scenarios. -/
def dbChk : DB :=
  { emptyDB with events := [mkEvent 10 1 none 1],
                 rsvps := [{ (mkRSVP 40 10 3 RStatus.going 0) with
                             checkedIn := true, checkedInAt := some 7 }] }

/-- Store with one approved five-star review and consistent aggregates, for
the stale-aggregate scenario. -/
def dbRev : DB :=
  { emptyDB with
    services := [{ (mkService 20 2) with ratingAverage := 5, totalRatings := 1 }],
    users := [{ (mkUser 2) with ratingAverage := 5, totalRatings := 1 }],
    reviews := [mkReview 50 30 20 2 1 5] }

/-- The store dbRev after the reviewer edits the rating from 5 to 1. -/
def dbRev2 : DB := (updateReview dbRev 1 50 (some 1) none 0).1

/-- Store with one completed booking and no review, for the review-creation
scenario. -/
def dbRev0 : DB :=
  { emptyDB with bookings := [mkBooking 30 10 20 1 2 10 BStatus.completed],
                 services := [mkService 20 2], users := [mkUser 1, mkUser 2] }

/-- Number of active bookings of an (event, service) pair, the quantity of
the uniqueness invariant. -/
def activeCount (db : DB) (e s : OID) : Nat :=
  db.bookings.countP (fun b => activeForPair b e s)

/-- Number of reviews referencing a booking. -/
def reviewCount (db : DB) (bookingId : OID) : Nat :=
  db.reviews.countP (fun r => r.booking == bookingId)

/-- Well-formedness of the booking collection: ids are below the fresh-id
counter and identify documents uniquely (the store guarantees both). -/
def BookingWF (db : DB) : Prop :=
  (∀ x ∈ db.bookings, x.id < db.nextId) ∧
  (∀ x ∈ db.bookings, ∀ y ∈ db.bookings, x.id = y.id → x = y)

/-- The uniqueness invariant of the booking collection: at most one active
booking per (event, service) pair. -/
def PairInv (db : DB) : Prop := ∀ e s, activeCount db e s ≤ 1

/-- The uniqueness invariant of the review collection: at most one review
per booking. -/
def ReviewInv (db : DB) : Prop := ∀ b, reviewCount db b ≤ 1

theorem countP_map_congr {α : Type} (l : List α) (f : α → α) (p : α → Bool)
    (h : ∀ x ∈ l, p (f x) = p x) : (l.map f).countP p = l.countP p := by
  induction l with
  | nil => rfl
  | cons a t ih =>
    simp only [List.map_cons, List.countP_cons]
    rw [h a (List.mem_cons_self a t), ih (fun x hx => h x (List.mem_cons_of_mem a hx))]

theorem countP_map_le {α : Type} (l : List α) (f : α → α) (p : α → Bool)
    (h : ∀ x ∈ l, p (f x) = true → p x = true) : (l.map f).countP p ≤ l.countP p := by
  induction l with
  | nil => exact Nat.le_refl _
  | cons a t ih =>
    simp only [List.map_cons, List.countP_cons]
    have h1 : (if p (f a) then 1 else 0) ≤ (if p a then 1 else 0) := by
      by_cases hf : p (f a) = true
      · simp [hf, h a (List.mem_cons_self a t) hf]
      · simp [hf]
    exact Nat.add_le_add (ih (fun x hx => h x (List.mem_cons_of_mem a hx))) h1

theorem find?_set {α : Type} (idOf : α → OID) (l : List α) (i j : OID) (g : α → α)
    (hg : ∀ x, idOf (g x) = idOf x) :
    (l.map (fun x => if idOf x == j then g x else x)).find? (fun x => idOf x == i)
      = (l.find? (fun x => idOf x == i)).map (fun x => if idOf x == j then g x else x) := by
  induction l with
  | nil => rfl
  | cons a t ih =>
    have hid : (idOf (if idOf a == j then g a else a) == i) = (idOf a == i) := by
      by_cases h : (idOf a == j) = true <;> simp [h, hg]
    by_cases h : (idOf a == i) = true
    · rw [List.map_cons,
        @List.find?_cons_of_pos _ (fun x => idOf x == i) _ _ (hid.trans h),
        @List.find?_cons_of_pos _ (fun x => idOf x == i) _ _ h, Option.map_some']
    · rw [List.map_cons,
        @List.find?_cons_of_neg _ (fun x => idOf x == i) _ _ (fun ha => h (hid.symm.trans ha)),
        @List.find?_cons_of_neg _ (fun x => idOf x == i) _ _ h, ih]

theorem DB.findBooking_setBooking (db : DB) (i j : OID) (g : Booking → Booking)
    (hg : ∀ b, (g b).id = b.id) :
    (db.setBooking j g).findBooking i
      = (db.findBooking i).map (fun b => if b.id == j then g b else b) := by
  unfold DB.setBooking DB.findBooking
  exact find?_set (fun b => b.id) db.bookings i j g hg

theorem DB.findRSVP_setRSVP (db : DB) (i j : OID) (g : RSVP → RSVP)
    (hg : ∀ r, (g r).id = r.id) :
    (db.setRSVP j g).findRSVP i
      = (db.findRSVP i).map (fun r => if r.id == j then g r else r) := by
  unfold DB.setRSVP DB.findRSVP
  exact find?_set (fun r => r.id) db.rsvps i j g hg

theorem DB.findReview_setReview (db : DB) (i j : OID) (g : Review → Review)
    (hg : ∀ r, (g r).id = r.id) :
    (db.setReview j g).findReview i
      = (db.findReview i).map (fun r => if r.id == j then g r else r) := by
  unfold DB.setReview DB.findReview
  exact find?_set (fun r => r.id) db.reviews i j g hg

theorem DB.findBooking_id {db : DB} {i : OID} {b : Booking}
    (h : db.findBooking i = some b) : b.id = i := by
  have := List.find?_some h
  simpa using this

theorem DB.findBooking_mem {db : DB} {i : OID} {b : Booking}
    (h : db.findBooking i = some b) : b ∈ db.bookings :=
  List.mem_of_find?_eq_some h

theorem DB.findBooking_append {db : DB} {i : OID} {b : Booking}
    (l : List Booking) (h : db.findBooking i = some b) :
    (db.bookings ++ l).find? (fun x => x.id == i) = some b := by
  unfold DB.findBooking at h
  rw [List.find?_append, h]
  rfl

theorem bookings_updateServiceRatingFn (db : DB) (s : OID) :
    (updateServiceRatingFn db s).bookings = db.bookings := by
  unfold updateServiceRatingFn updateVendorRatingFn
  dsimp only
  try dsimp only
  (repeat' split) <;> rfl

theorem reviews_updateServiceRatingFn (db : DB) (s : OID) :
    (updateServiceRatingFn db s).reviews = db.reviews := by
  unfold updateServiceRatingFn updateVendorRatingFn
  dsimp only
  try dsimp only
  (repeat' split) <;> rfl

theorem nextId_updateServiceRatingFn (db : DB) (s : OID) :
    (updateServiceRatingFn db s).nextId = db.nextId := by
  unfold updateServiceRatingFn updateVendorRatingFn
  dsimp only
  try dsimp only
  (repeat' split) <;> rfl

theorem bookings_createRSVP (db : DB) (c e : OID) (s : RStatus) (g : Nat) :
    (createRSVP db c e s g).1.bookings = db.bookings := by
  unfold createRSVP
  try dsimp only
  (repeat' split) <;> rfl

theorem reviews_createRSVP (db : DB) (c e : OID) (s : RStatus) (g : Nat) :
    (createRSVP db c e s g).1.reviews = db.reviews := by
  unfold createRSVP
  try dsimp only
  (repeat' split) <;> rfl

theorem nextId_le_createRSVP (db : DB) (c e : OID) (s : RStatus) (g : Nat) :
    db.nextId <= (createRSVP db c e s g).1.nextId := by
  unfold createRSVP
  try dsimp only
  (repeat' split) <;> first | exact Nat.le_refl _ | exact Nat.le_succ _

theorem bookings_updateRSVP (db : DB) (c r : OID) (s : Option RStatus) (g : Option Nat) :
    (updateRSVP db c r s g).1.bookings = db.bookings := by
  unfold updateRSVP
  try dsimp only
  (repeat' split) <;> rfl

theorem reviews_updateRSVP (db : DB) (c r : OID) (s : Option RStatus) (g : Option Nat) :
    (updateRSVP db c r s g).1.reviews = db.reviews := by
  unfold updateRSVP
  try dsimp only
  (repeat' split) <;> rfl

theorem nextId_updateRSVP (db : DB) (c r : OID) (s : Option RStatus) (g : Option Nat) :
    (updateRSVP db c r s g).1.nextId = db.nextId := by
  unfold updateRSVP
  try dsimp only
  (repeat' split) <;> rfl

theorem bookings_cancelRSVP (db : DB) (c r : OID) :
    (cancelRSVP db c r).1.bookings = db.bookings := by
  unfold cancelRSVP
  try dsimp only
  (repeat' split) <;> rfl

theorem reviews_cancelRSVP (db : DB) (c r : OID) :
    (cancelRSVP db c r).1.reviews = db.reviews := by
  unfold cancelRSVP
  try dsimp only
  (repeat' split) <;> rfl

theorem nextId_cancelRSVP (db : DB) (c r : OID) :
    (cancelRSVP db c r).1.nextId = db.nextId := by
  unfold cancelRSVP
  try dsimp only
  (repeat' split) <;> rfl

theorem bookings_checkInAttendee (db : DB) (c r : OID) (n : Nat) :
    (checkInAttendee db c r n).1.bookings = db.bookings := by
  unfold checkInAttendee
  try dsimp only
  (repeat' split) <;> rfl

theorem reviews_checkInAttendee (db : DB) (c r : OID) (n : Nat) :
    (checkInAttendee db c r n).1.reviews = db.reviews := by
  unfold checkInAttendee
  try dsimp only
  (repeat' split) <;> rfl

theorem nextId_checkInAttendee (db : DB) (c r : OID) (n : Nat) :
    (checkInAttendee db c r n).1.nextId = db.nextId := by
  unfold checkInAttendee
  try dsimp only
  (repeat' split) <;> rfl

theorem bookings_checkInByCode (db : DB) (c e : OID) (k : String) (n : Nat) :
    (checkInByCode db c e k n).1.bookings = db.bookings := by
  unfold checkInByCode
  try dsimp only
  (repeat' split) <;> rfl

theorem reviews_checkInByCode (db : DB) (c e : OID) (k : String) (n : Nat) :
    (checkInByCode db c e k n).1.reviews = db.reviews := by
  unfold checkInByCode
  try dsimp only
  (repeat' split) <;> rfl

theorem nextId_checkInByCode (db : DB) (c e : OID) (k : String) (n : Nat) :
    (checkInByCode db c e k n).1.nextId = db.nextId := by
  unfold checkInByCode
  try dsimp only
  (repeat' split) <;> rfl

theorem reviews_createBooking (db : DB) (c e s : OID) (d : Option Nat) (p : Int)
    (no rq : Option String) :
    (createBooking db c e s d p no rq).1.reviews = db.reviews := by
  unfold createBooking
  try dsimp only
  (repeat' split) <;> rfl

theorem nextId_le_createBooking (db : DB) (c e s : OID) (d : Option Nat) (p : Int)
    (no rq : Option String) :
    db.nextId <= (createBooking db c e s d p no rq).1.nextId := by
  unfold createBooking
  try dsimp only
  (repeat' split) <;> first | exact Nat.le_refl _ | exact Nat.le_succ _

theorem reviews_updateBooking (db : DB) (c b : OID) (p : Option Int)
    (no rq : Option String) :
    (updateBooking db c b p no rq).1.reviews = db.reviews := by
  unfold updateBooking
  try dsimp only
  (repeat' split) <;> rfl

theorem nextId_updateBooking (db : DB) (c b : OID) (p : Option Int)
    (no rq : Option String) :
    (updateBooking db c b p no rq).1.nextId = db.nextId := by
  unfold updateBooking
  try dsimp only
  (repeat' split) <;> rfl

theorem reviews_confirmBooking (db : DB) (c b : OID) :
    (confirmBooking db c b).1.reviews = db.reviews := by
  unfold confirmBooking
  try dsimp only
  (repeat' split) <;> rfl

theorem nextId_confirmBooking (db : DB) (c b : OID) :
    (confirmBooking db c b).1.nextId = db.nextId := by
  unfold confirmBooking
  try dsimp only
  (repeat' split) <;> rfl

theorem reviews_cancelBooking (db : DB) (c b : OID) (rs : Option String) (n : Nat) :
    (cancelBooking db c b rs n).1.reviews = db.reviews := by
  unfold cancelBooking
  try dsimp only
  (repeat' split) <;> rfl

theorem nextId_cancelBooking (db : DB) (c b : OID) (rs : Option String) (n : Nat) :
    (cancelBooking db c b rs n).1.nextId = db.nextId := by
  unfold cancelBooking
  try dsimp only
  (repeat' split) <;> rfl

theorem reviews_completeBooking (db : DB) (c b : OID) (n : Nat) :
    (completeBooking db c b n).1.reviews = db.reviews := by
  unfold completeBooking
  try dsimp only
  (repeat' split) <;> rfl

theorem nextId_completeBooking (db : DB) (c b : OID) (n : Nat) :
    (completeBooking db c b n).1.nextId = db.nextId := by
  unfold completeBooking
  try dsimp only
  (repeat' split) <;> rfl

theorem reviews_updatePayment (db : DB) (c b : OID) (a : Int) (m t no : Option String)
    (n : Nat) : (updatePayment db c b a m t no n).1.reviews = db.reviews := by
  unfold updatePayment
  try dsimp only
  (repeat' split) <;> rfl

theorem nextId_updatePayment (db : DB) (c b : OID) (a : Int) (m t no : Option String)
    (n : Nat) : (updatePayment db c b a m t no n).1.nextId = db.nextId := by
  unfold updatePayment
  try dsimp only
  (repeat' split) <;> rfl

theorem reviews_recordPayment (db : DB) (c b : OID) (a : Int) (m t no : Option String)
    (n : Nat) : (recordPayment db c b a m t no n).1.reviews = db.reviews := by
  unfold recordPayment
  try dsimp only
  (repeat' split) <;> rfl

theorem nextId_recordPayment (db : DB) (c b : OID) (a : Int) (m t no : Option String)
    (n : Nat) : (recordPayment db c b a m t no n).1.nextId = db.nextId := by
  unfold recordPayment
  try dsimp only
  (repeat' split) <;> rfl

theorem bookings_createReview (db : DB) (c b : OID) (r : Nat) (t : String) (n : Nat) :
    (createReview db c b r t n).1.bookings = db.bookings := by
  unfold createReview
  dsimp only
  (repeat' split) <;>
    simp [bookings_updateServiceRatingFn, DB.setUser, notify]

theorem nextId_le_createReview (db : DB) (c b : OID) (r : Nat) (t : String) (n : Nat) :
    db.nextId <= (createReview db c b r t n).1.nextId := by
  unfold createReview
  dsimp only
  (repeat' split) <;>
    first
    | exact Nat.le_refl _
    | simp [nextId_updateServiceRatingFn, DB.setUser, notify]

theorem bookings_updateReview (db : DB) (c r : OID) (ra : Option Nat)
    (t : Option String) (n : Nat) :
    (updateReview db c r ra t n).1.bookings = db.bookings := by
  unfold updateReview
  try dsimp only
  (repeat' split) <;> rfl

theorem nextId_updateReview (db : DB) (c r : OID) (ra : Option Nat)
    (t : Option String) (n : Nat) :
    (updateReview db c r ra t n).1.nextId = db.nextId := by
  unfold updateReview
  try dsimp only
  (repeat' split) <;> rfl

theorem bookings_deleteReview (db : DB) (c : OID) (ad : Bool) (r : OID) :
    (deleteReview db c ad r).1.bookings = db.bookings := by
  unfold deleteReview
  try dsimp only
  (repeat' split) <;> rfl

theorem nextId_deleteReview (db : DB) (c : OID) (ad : Bool) (r : OID) :
    (deleteReview db c ad r).1.nextId = db.nextId := by
  unfold deleteReview
  try dsimp only
  (repeat' split) <;> rfl

theorem bookings_moderateReview (db : DB) (r : OID) (a : Bool) :
    (moderateReview db r a).1.bookings = db.bookings := by
  unfold moderateReview
  try dsimp only
  (repeat' split) <;> rfl

theorem nextId_moderateReview (db : DB) (r : OID) (a : Bool) :
    (moderateReview db r a).1.nextId = db.nextId := by
  unfold moderateReview
  try dsimp only
  (repeat' split) <;> rfl



theorem findBooking_notify (db : DB) (r : OID) (k t : String) (i : OID) :
    (notify db r k t).findBooking i = db.findBooking i := rfl

theorem findRSVP_notify (db : DB) (r : OID) (k t : String) (i : OID) :
    (notify db r k t).findRSVP i = db.findRSVP i := rfl

theorem findRSVP_rsvpPostSave (db : DB) (e i : OID) :
    (rsvpPostSave db e).findRSVP i = db.findRSVP i := rfl

theorem findBooking_setService (db : DB) (j : OID) (g : Service → Service) (i : OID) :
    (db.setService j g).findBooking i = db.findBooking i := rfl

theorem findBooking_setEvent (db : DB) (j : OID) (g : Event → Event) (i : OID) :
    (db.setEvent j g).findBooking i = db.findBooking i := rfl

theorem err_createRSVP (db : DB) (c e : OID) (s : RStatus) (g : Nat) (er : Err)
    (h : (createRSVP db c e s g).2 = Res.err er) : (createRSVP db c e s g).1 = db := by
  unfold createRSVP at h ⊢
  revert h
  try dsimp only
  (repeat' split) <;> intro h <;> first | rfl | simp at h

theorem err_updateRSVP (db : DB) (c r : OID) (s : Option RStatus) (g : Option Nat)
    (er : Err) (h : (updateRSVP db c r s g).2 = Res.err er) :
    (updateRSVP db c r s g).1 = db := by
  unfold updateRSVP at h ⊢
  revert h
  try dsimp only
  (repeat' split) <;> intro h <;> first | rfl | simp at h

theorem err_cancelRSVP (db : DB) (c r : OID) (er : Err)
    (h : (cancelRSVP db c r).2 = Res.err er) : (cancelRSVP db c r).1 = db := by
  unfold cancelRSVP at h ⊢
  revert h
  try dsimp only
  (repeat' split) <;> intro h <;> first | rfl | simp at h

theorem err_checkInAttendee (db : DB) (c r : OID) (n : Nat) (er : Err)
    (h : (checkInAttendee db c r n).2 = Res.err er) : (checkInAttendee db c r n).1 = db := by
  unfold checkInAttendee at h ⊢
  revert h
  try dsimp only
  (repeat' split) <;> intro h <;> first | rfl | simp at h

theorem err_checkInByCode (db : DB) (c e : OID) (k : String) (n : Nat) (er : Err)
    (h : (checkInByCode db c e k n).2 = Res.err er) : (checkInByCode db c e k n).1 = db := by
  unfold checkInByCode at h ⊢
  revert h
  try dsimp only
  (repeat' split) <;> intro h <;> first | rfl | simp at h

theorem err_createBooking (db : DB) (c e s : OID) (d : Option Nat) (p : Int)
    (no rq : Option String) (er : Err)
    (h : (createBooking db c e s d p no rq).2 = Res.err er) :
    (createBooking db c e s d p no rq).1 = db := by
  unfold createBooking at h ⊢
  revert h
  try dsimp only
  (repeat' split) <;> intro h <;> first | rfl | simp at h

theorem err_updateBooking (db : DB) (c b : OID) (p : Option Int) (no rq : Option String)
    (er : Err) (h : (updateBooking db c b p no rq).2 = Res.err er) :
    (updateBooking db c b p no rq).1 = db := by
  unfold updateBooking at h ⊢
  revert h
  try dsimp only
  (repeat' split) <;> intro h <;> first | rfl | simp at h

theorem err_confirmBooking (db : DB) (c b : OID) (er : Err)
    (h : (confirmBooking db c b).2 = Res.err er) : (confirmBooking db c b).1 = db := by
  unfold confirmBooking at h ⊢
  revert h
  try dsimp only
  (repeat' split) <;> intro h <;> first | rfl | simp at h

theorem err_cancelBooking (db : DB) (c b : OID) (rs : Option String) (n : Nat) (er : Err)
    (h : (cancelBooking db c b rs n).2 = Res.err er) : (cancelBooking db c b rs n).1 = db := by
  unfold cancelBooking at h ⊢
  revert h
  try dsimp only
  (repeat' split) <;> intro h <;> first | rfl | simp at h

theorem err_completeBooking (db : DB) (c b : OID) (n : Nat) (er : Err)
    (h : (completeBooking db c b n).2 = Res.err er) : (completeBooking db c b n).1 = db := by
  unfold completeBooking at h ⊢
  revert h
  try dsimp only
  (repeat' split) <;> intro h <;> first | rfl | simp at h

theorem err_updatePayment (db : DB) (c b : OID) (a : Int) (m t no : Option String)
    (n : Nat) (er : Err) (h : (updatePayment db c b a m t no n).2 = Res.err er) :
    (updatePayment db c b a m t no n).1 = db := by
  unfold updatePayment at h ⊢
  revert h
  try dsimp only
  (repeat' split) <;> intro h <;> first | rfl | simp at h

theorem err_recordPayment (db : DB) (c b : OID) (a : Int) (m t no : Option String)
    (n : Nat) (er : Err) (h : (recordPayment db c b a m t no n).2 = Res.err er) :
    (recordPayment db c b a m t no n).1 = db := by
  unfold recordPayment at h ⊢
  revert h
  try dsimp only
  (repeat' split) <;> intro h <;> first | rfl | simp at h

theorem err_createReview (db : DB) (c b : OID) (r : Nat) (t : String) (n : Nat) (er : Err)
    (h : (createReview db c b r t n).2 = Res.err er) : (createReview db c b r t n).1 = db := by
  unfold createReview at h ⊢
  revert h
  try dsimp only
  (repeat' split) <;> intro h <;> first | rfl | simp at h

theorem err_updateReview (db : DB) (c r : OID) (ra : Option Nat) (t : Option String)
    (n : Nat) (er : Err) (h : (updateReview db c r ra t n).2 = Res.err er) :
    (updateReview db c r ra t n).1 = db := by
  unfold updateReview at h ⊢
  revert h
  try dsimp only
  (repeat' split) <;> intro h <;> first | rfl | simp at h

theorem err_deleteReview (db : DB) (c : OID) (ad : Bool) (r : OID) (er : Err)
    (h : (deleteReview db c ad r).2 = Res.err er) : (deleteReview db c ad r).1 = db := by
  unfold deleteReview at h ⊢
  revert h
  try dsimp only
  (repeat' split) <;> intro h <;> first | rfl | simp at h

theorem err_moderateReview (db : DB) (r : OID) (a : Bool) (er : Err)
    (h : (moderateReview db r a).2 = Res.err er) : (moderateReview db r a).1 = db := by
  unfold moderateReview at h ⊢
  revert h
  try dsimp only
  (repeat' split) <;> intro h <;> first | rfl | simp at h

/-- C9: whenever one of the modelled mutating operations (booking create,
update, confirm, cancel, complete, both payment entry points, RSVP upsert,
update, cancel, both check-in entry points, review create, update, delete
and moderate) returns a typed error, every stored collection is exactly as
it was before the call: in the source all error returns happen before the
first write of the handler. -/
theorem C9_error_atomicity (db : DB) (o : Op) (e : Err)
    (h : (runOp db o).2 = Res.err e) : (runOp db o).1 = db := by
  cases o <;> simp only [runOp] at h ⊢
  case createRSVP c ev s g => exact err_createRSVP db c ev s g e h
  case updateRSVP c r s g => exact err_updateRSVP db c r s g e h
  case cancelRSVP c r => exact err_cancelRSVP db c r e h
  case checkInAttendee c r n => exact err_checkInAttendee db c r n e h
  case checkInByCode c ev k n => exact err_checkInByCode db c ev k n e h
  case createBooking c ev s d p no rq => exact err_createBooking db c ev s d p no rq e h
  case updateBooking c b p no rq => exact err_updateBooking db c b p no rq e h
  case confirmBooking c b => exact err_confirmBooking db c b e h
  case cancelBooking c b rs n => exact err_cancelBooking db c b rs n e h
  case completeBooking c b n => exact err_completeBooking db c b n e h
  case updatePayment c b a m t no n => exact err_updatePayment db c b a m t no n e h
  case recordPayment c b a m t no n => exact err_recordPayment db c b a m t no n e h
  case createReview c b r t n => exact err_createReview db c b r t n e h
  case updateReview c r ra t n => exact err_updateReview db c r ra t n e h
  case deleteReview c ad r => exact err_deleteReview db c ad r e h
  case moderateReview r a => exact err_moderateReview db r a e h

/-- Witness for C9: confirming a booking that does not exist fails notFound
and leaves the empty store unchanged. -/
theorem C9_error_atomicity_witness :
    (runOp emptyDB (Op.confirmBooking 1 30)).2 = Res.err Err.notFound ∧
    (runOp emptyDB (Op.confirmBooking 1 30)).1 = emptyDB :=
  ⟨by decide, C9_error_atomicity emptyDB (Op.confirmBooking 1 30) Err.notFound (by decide)⟩

theorem findBooking_of_bookings_eq {db db2 : DB} (h : db2.bookings = db.bookings)
    (i : OID) : db2.findBooking i = db.findBooking i := by
  unfold DB.findBooking
  rw [h]

theorem status_pres_set_key (db : DB) (j : OID) (g : Booking → Booking) (i : OID)
    (b : Booking) (hfind : db.findBooking i = some b)
    (hgid : ∀ x, (g x).id = x.id) (hkey : b.id = j → (g b).status = b.status) :
    (((db.setBooking j g).findBooking i).map (fun x => x.status)) = some b.status := by
  rw [DB.findBooking_setBooking db i j g hgid, hfind]
  simp only [Option.map_some']
  by_cases hb : b.id = j
  · simp [hb, hkey hb]
  · simp [hb]

theorem status_pres_updateBooking (db : DB) (c j : OID) (p : Option Int)
    (no rq : Option String) (i : OID) (b : Booking) (hfind : db.findBooking i = some b) :
    (((updateBooking db c j p no rq).1.findBooking i).map (fun x => x.status)) =
      some b.status := by
  unfold updateBooking
  (repeat' split) <;>
    first
    | (dsimp only; rw [hfind]; rfl)
    | (dsimp only
       apply status_pres_set_key db j <;>
         first | exact hfind | (intro x; rfl))

theorem status_pres_updatePayment (db : DB) (c j : OID) (a : Int)
    (m t no : Option String) (n : Nat) (i : OID) (b : Booking)
    (hfind : db.findBooking i = some b) :
    (((updatePayment db c j a m t no n).1.findBooking i).map (fun x => x.status)) =
      some b.status := by
  unfold updatePayment
  (repeat' split) <;>
    first
    | (dsimp only; rw [hfind]; rfl)
    | (dsimp only
       rw [findBooking_notify]
       apply status_pres_set_key db j <;>
         first | exact hfind | (intro x; rfl))

theorem status_pres_recordPayment (db : DB) (c j : OID) (a : Int)
    (m t no : Option String) (n : Nat) (i : OID) (b : Booking)
    (hfind : db.findBooking i = some b) :
    (((recordPayment db c j a m t no n).1.findBooking i).map (fun x => x.status)) =
      some b.status := by
  unfold recordPayment
  (repeat' split) <;>
    first
    | (dsimp only; rw [hfind]; rfl)
    | (dsimp only
       rw [findBooking_notify]
       apply status_pres_set_key db j <;>
         first | exact hfind | (intro x; rfl))

theorem status_pres_createBooking (db : DB) (c e s : OID) (d : Option Nat) (p : Int)
    (no rq : Option String) (i : OID) (b : Booking) (hfind : db.findBooking i = some b) :
    (((createBooking db c e s d p no rq).1.findBooking i).map (fun x => x.status)) =
      some b.status := by
  unfold createBooking
  (repeat' split) <;>
    first
    | (dsimp only; rw [hfind]; rfl)
    | (dsimp only
       rw [findBooking_notify, findBooking_setService]
       unfold DB.findBooking
       dsimp only
       rw [DB.findBooking_append _ hfind]
       rfl)

theorem status_pres_confirmBooking (db : DB) (c j : OID) (i : OID) (b : Booking)
    (hfind : db.findBooking i = some b)
    (hterm : b.status = BStatus.completed ∨ b.status = BStatus.cancelled) :
    (((confirmBooking db c j).1.findBooking i).map (fun x => x.status)) = some b.status := by
  unfold confirmBooking
  cases heq : db.findBooking j with
  | none => dsimp only; rw [hfind]; rfl
  | some b2 =>
    dsimp only
    by_cases h1 : (b2.vendor != c) = true
    · rw [if_pos h1]; dsimp only; rw [hfind]; rfl
    · rw [if_neg h1]
      by_cases h2 : (b2.status != BStatus.pending) = true
      · rw [if_pos h2]; dsimp only; rw [hfind]; rfl
      · rw [if_neg h2]
        dsimp only
        rw [findBooking_notify]
        apply status_pres_set_key db j
        · exact hfind
        · intro x
          rfl
        · intro hb
          have hji : db.findBooking j = some b := by
            rw [← hb, DB.findBooking_id hfind]
            exact hfind
          have hb2 : b2 = b := by
            rw [hji] at heq
            exact (Option.some.inj heq).symm
          have hpend : b.status = BStatus.pending := by
            rw [← hb2]
            simpa using h2
          rcases hterm with h | h <;> rw [h] at hpend <;> exact absurd hpend (by decide)

theorem status_pres_cancelBooking (db : DB) (c j : OID) (rs : Option String) (n : Nat)
    (i : OID) (b : Booking) (hfind : db.findBooking i = some b)
    (hterm : b.status = BStatus.completed ∨ b.status = BStatus.cancelled) :
    (((cancelBooking db c j rs n).1.findBooking i).map (fun x => x.status)) =
      some b.status := by
  unfold cancelBooking
  cases heq : db.findBooking j with
  | none => dsimp only; rw [hfind]; rfl
  | some b2 =>
    dsimp only
    by_cases h1 : (b2.organizer != c && b2.vendor != c) = true
    · rw [if_pos h1]; dsimp only; rw [hfind]; rfl
    · rw [if_neg h1]
      by_cases h2 : (b2.status == BStatus.completed) = true
      · rw [if_pos h2]; dsimp only; rw [hfind]; rfl
      · rw [if_neg h2]
        dsimp only
        rw [findBooking_notify]
        apply status_pres_set_key db j
        · exact hfind
        · intro x
          rfl
        · intro hb
          have hji : db.findBooking j = some b := by
            rw [← hb, DB.findBooking_id hfind]
            exact hfind
          have hb2 : b2 = b := by
            rw [hji] at heq
            exact (Option.some.inj heq).symm
          have hnc : ¬ b.status = BStatus.completed := by
            rw [← hb2]
            simpa using h2
          rcases hterm with h | h
          · exact absurd h hnc
          · rw [h]

theorem status_pres_completeBooking (db : DB) (c j : OID) (n : Nat) (i : OID)
    (b : Booking) (hfind : db.findBooking i = some b)
    (hterm : b.status = BStatus.completed ∨ b.status = BStatus.cancelled) :
    (((completeBooking db c j n).1.findBooking i).map (fun x => x.status)) =
      some b.status := by
  unfold completeBooking
  cases heq : db.findBooking j with
  | none => dsimp only; rw [hfind]; rfl
  | some b2 =>
    dsimp only
    by_cases h1 : (b2.organizer != c) = true
    · rw [if_pos h1]; dsimp only; rw [hfind]; rfl
    · rw [if_neg h1]
      by_cases h2 : (b2.status != BStatus.confirmed && b2.status != BStatus.inProgress) = true
      · rw [if_pos h2]; dsimp only; rw [hfind]; rfl
      · rw [if_neg h2]
        dsimp only
        rw [findBooking_notify, findBooking_setService]
        apply status_pres_set_key db j
        · exact hfind
        · intro x
          rfl
        · intro hb
          have hji : db.findBooking j = some b := by
            rw [← hb, DB.findBooking_id hfind]
            exact hfind
          have hb2 : b2 = b := by
            rw [hji] at heq
            exact (Option.some.inj heq).symm
          have hact : b.status = BStatus.confirmed ∨ b.status = BStatus.inProgress := by
            have h2f : (b2.status != BStatus.confirmed && b2.status != BStatus.inProgress)
                = false := Bool.not_eq_true _ ▸ (by simpa using h2)
            rw [← hb2]
            rcases Bool.and_eq_false_iff.mp h2f with h | h
            · left
              simpa using h
            · right
              simpa using h
          rcases hterm with h | h <;> rcases hact with h3 | h3 <;>
            rw [h] at h3 <;> exact absurd h3 (by decide)


theorem countP_filter_le {α : Type} (l : List α) (p q : α → Bool) :
    (l.filter q).countP p ≤ l.countP p := by
  induction l with
  | nil => exact Nat.le_refl _
  | cons a t ih =>
    simp only [List.filter_cons]
    by_cases hq : q a = true
    · rw [if_pos hq]
      simp only [List.countP_cons]
      exact Nat.add_le_add ih (Nat.le_refl _)
    · rw [if_neg hq]
      simp only [List.countP_cons]
      exact Nat.le_trans ih (Nat.le_add_right _ _)

theorem pairInv_of_bookings_eq {db db2 : DB} (hb : db2.bookings = db.bookings)
    (h : PairInv db) : PairInv db2 := by
  intro e s
  unfold activeCount
  rw [hb]
  exact h e s

theorem wf_mono {db db2 : DB} (hb : db2.bookings = db.bookings)
    (hn : db.nextId ≤ db2.nextId) (h : BookingWF db) : BookingWF db2 := by
  constructor
  · intro x hx
    rw [hb] at hx
    exact Nat.lt_of_lt_of_le (h.1 x hx) hn
  · intro x hx y hy
    rw [hb] at hx hy
    exact h.2 x hx y hy

theorem pairInv_setBooking (db : DB) (j : OID) (g : Booking → Booking) (h : PairInv db)
    (hg : ∀ x ∈ db.bookings, x.id = j → ∀ e s,
        activeForPair (g x) e s = true → activeForPair x e s = true) :
    PairInv (db.setBooking j g) := by
  intro e s
  refine Nat.le_trans ?_ (h e s)
  apply countP_map_le
  intro x hx hxx
  by_cases hb : (x.id == j) = true
  · rw [if_pos hb] at hxx
    exact hg x hx (by simpa using hb) e s hxx
  · rw [if_neg hb] at hxx
    exact hxx

theorem wf_setBooking (db : DB) (j : OID) (g : Booking → Booking)
    (hgid : ∀ x, (g x).id = x.id) (h : BookingWF db) : BookingWF (db.setBooking j g) := by
  have hfid : ∀ x : Booking, (if x.id == j then g x else x).id = x.id := by
    intro x
    by_cases hb : (x.id == j) = true
    · rw [if_pos hb]
      exact hgid x
    · rw [if_neg hb]
  constructor
  · intro y hy
    rcases List.mem_map.mp hy with ⟨x, hx, hxy⟩
    rw [← hxy, hfid]
    exact h.1 x hx
  · intro y1 h1 y2 h2 hid12
    rcases List.mem_map.mp h1 with ⟨x1, hx1, e1⟩
    rcases List.mem_map.mp h2 with ⟨x2, hx2, e2⟩
    rw [← e1, ← e2] at hid12 ⊢
    rw [hfid, hfid] at hid12
    rw [h.2 x1 hx1 x2 hx2 hid12]

theorem wf_append (db : DB) (h : BookingWF db) (nb : Booking) (hid : nb.id = db.nextId) :
    BookingWF { db with bookings := db.bookings ++ [nb], nextId := db.nextId + 1 } := by
  constructor
  · intro x hx
    rcases List.mem_append.mp hx with h1 | h1
    · exact Nat.lt_succ_of_lt (h.1 x h1)
    · have : x = nb := by simpa using h1
      subst this
      rw [hid]
      exact Nat.lt_succ_self _
  · intro x hx y hy hxy
    rcases List.mem_append.mp hx with h1 | h1 <;> rcases List.mem_append.mp hy with h2 | h2
    · exact h.2 x h1 y h2 hxy
    · have hy2 : y = nb := by simpa using h2
      subst hy2
      have := h.1 x h1
      rw [hxy, hid] at this
      exact absurd this (lt_irrefl _)
    · have hx2 : x = nb := by simpa using h1
      subst hx2
      have := h.1 y h2
      rw [← hxy, hid] at this
      exact absurd this (lt_irrefl _)
    · have hx2 : x = nb := by simpa using h1
      have hy2 : y = nb := by simpa using h2
      rw [hx2, hy2]

theorem pairInv_append (db : DB) (nb : Booking) (e0 s0 : OID)
    (he : nb.event = e0) (hs : nb.service = s0) (h : PairInv db)
    (hno : (db.bookings.any (fun b => activeForPair b e0 s0)) = false) :
    ∀ e s, ((db.bookings ++ [nb]).countP (fun b => activeForPair b e s)) ≤ 1 := by
  intro e s
  rw [List.countP_append]
  by_cases hes : e = e0 ∧ s = s0
  · rcases hes with ⟨he1, hs1⟩
    subst he1
    subst hs1
    have h0 : db.bookings.countP (fun b => activeForPair b e s) = 0 := by
      rw [List.countP_eq_zero]
      intro a ha
      simpa using List.any_eq_false.mp hno a ha
    rw [h0, Nat.zero_add]
    by_cases hnb : activeForPair nb e s = true <;>
      simp [List.countP_cons, hnb]
  · have h1 : ([nb].countP (fun b => activeForPair b e s)) = 0 := by
      rw [List.countP_eq_zero]
      intro a ha
      have ha2 : a = nb := by simpa using ha
      subst ha2
      intro hact
      apply hes
      unfold activeForPair at hact
      simp only [Bool.and_eq_true, beq_iff_eq] at hact
      exact ⟨he ▸ hact.1.1.symm, hs ▸ hact.1.2.symm⟩
    rw [h1, Nat.add_zero]
    exact h e s


theorem pairInv_updateBooking (db : DB) (c j : OID) (p : Option Int)
    (no rq : Option String) (h : PairInv db) : PairInv (updateBooking db c j p no rq).1 := by
  unfold updateBooking
  (repeat' split) <;>
    first
    | exact h
    | (refine pairInv_setBooking db j _ h ?_
       intro x hx hxj e s hxx
       exact hxx)

theorem pairInv_updatePayment (db : DB) (c j : OID) (a : Int) (m t no : Option String)
    (n : Nat) (h : PairInv db) : PairInv (updatePayment db c j a m t no n).1 := by
  unfold updatePayment
  (repeat' split) <;>
    first
    | exact h
    | (refine pairInv_setBooking db j _ h ?_
       intro x hx hxj e s hxx
       exact hxx)

theorem pairInv_recordPayment (db : DB) (c j : OID) (a : Int) (m t no : Option String)
    (n : Nat) (h : PairInv db) : PairInv (recordPayment db c j a m t no n).1 := by
  unfold recordPayment
  (repeat' split) <;>
    first
    | exact h
    | (refine pairInv_setBooking db j _ h ?_
       intro x hx hxj e s hxx
       exact hxx)

theorem pairInv_cancelBooking (db : DB) (c j : OID) (rs : Option String) (n : Nat)
    (h : PairInv db) : PairInv (cancelBooking db c j rs n).1 := by
  unfold cancelBooking
  (repeat' split) <;>
    first
    | exact h
    | (refine pairInv_setBooking db j _ h ?_
       intro x hx hxj e s hxx
       unfold activeForPair at hxx
       simp at hxx)

theorem pairInv_confirmBooking (db : DB) (c j : OID) (hwf : BookingWF db)
    (h : PairInv db) : PairInv (confirmBooking db c j).1 := by
  unfold confirmBooking
  cases heq : db.findBooking j with
  | none => exact h
  | some b2 =>
    dsimp only
    by_cases h1 : (b2.vendor != c) = true
    · rw [if_pos h1]
      exact h
    · rw [if_neg h1]
      by_cases h2 : (b2.status != BStatus.pending) = true
      · rw [if_pos h2]
        exact h
      · rw [if_neg h2]
        dsimp only
        refine pairInv_setBooking db j _ h ?_
        intro x hx hxj e s hxx
        have hxb2 : x = b2 :=
          hwf.2 x hx b2 (DB.findBooking_mem heq) (by rw [hxj, DB.findBooking_id heq])
        have hst : x.status = BStatus.pending := by
          rw [hxb2]
          simpa using h2
        unfold activeForPair at hxx ⊢
        simp only [Bool.and_eq_true] at hxx ⊢
        refine ⟨hxx.1, ?_⟩
        rw [hst]
        rfl

theorem pairInv_completeBooking (db : DB) (c j : OID) (n : Nat) (hwf : BookingWF db)
    (h : PairInv db) : PairInv (completeBooking db c j n).1 := by
  unfold completeBooking
  cases heq : db.findBooking j with
  | none => exact h
  | some b2 =>
    dsimp only
    by_cases h1 : (b2.organizer != c) = true
    · rw [if_pos h1]
      exact h
    · rw [if_neg h1]
      by_cases h2 : (b2.status != BStatus.confirmed && b2.status != BStatus.inProgress) = true
      · rw [if_pos h2]
        exact h
      · rw [if_neg h2]
        dsimp only
        refine pairInv_setBooking db j _ h ?_
        intro x hx hxj e s hxx
        have hxb2 : x = b2 :=
          hwf.2 x hx b2 (DB.findBooking_mem heq) (by rw [hxj, DB.findBooking_id heq])
        have hact : x.status = BStatus.confirmed ∨ x.status = BStatus.inProgress := by
          have h2f : (b2.status != BStatus.confirmed && b2.status != BStatus.inProgress)
              = false := Bool.not_eq_true _ ▸ (by simpa using h2)
          rw [hxb2]
          rcases Bool.and_eq_false_iff.mp h2f with hh | hh
          · left
            simpa using hh
          · right
            simpa using hh
        unfold activeForPair at hxx ⊢
        simp only [Bool.and_eq_true] at hxx ⊢
        refine ⟨hxx.1, ?_⟩
        rcases hact with hst | hst <;> rw [hst] <;> rfl

theorem pairInv_createBooking (db : DB) (c e s : OID) (d : Option Nat) (p : Int)
    (no rq : Option String) (h : PairInv db) :
    PairInv (createBooking db c e s d p no rq).1 := by
  unfold createBooking
  (repeat' split) <;>
    first
    | exact h
    | (rename_i hno
       intro e1 s1
       exact pairInv_append db _ e s rfl rfl h (by simpa using hno) e1 s1)

theorem wf_updateBooking (db : DB) (c j : OID) (p : Option Int) (no rq : Option String)
    (h : BookingWF db) : BookingWF (updateBooking db c j p no rq).1 := by
  unfold updateBooking
  (repeat' split) <;>
    first
    | exact h
    | (refine wf_setBooking db j _ ?_ h
       intro x
       rfl)

theorem wf_updatePayment (db : DB) (c j : OID) (a : Int) (m t no : Option String)
    (n : Nat) (h : BookingWF db) : BookingWF (updatePayment db c j a m t no n).1 := by
  unfold updatePayment
  (repeat' split) <;>
    first
    | exact h
    | (refine wf_setBooking db j _ ?_ h
       intro x
       rfl)

theorem wf_recordPayment (db : DB) (c j : OID) (a : Int) (m t no : Option String)
    (n : Nat) (h : BookingWF db) : BookingWF (recordPayment db c j a m t no n).1 := by
  unfold recordPayment
  (repeat' split) <;>
    first
    | exact h
    | (refine wf_setBooking db j _ ?_ h
       intro x
       rfl)

theorem wf_confirmBooking (db : DB) (c j : OID) (h : BookingWF db) :
    BookingWF (confirmBooking db c j).1 := by
  unfold confirmBooking
  (repeat' split) <;>
    first
    | exact h
    | (refine wf_setBooking db j _ ?_ h
       intro x
       rfl)

theorem wf_cancelBooking (db : DB) (c j : OID) (rs : Option String) (n : Nat)
    (h : BookingWF db) : BookingWF (cancelBooking db c j rs n).1 := by
  unfold cancelBooking
  (repeat' split) <;>
    first
    | exact h
    | (refine wf_setBooking db j _ ?_ h
       intro x
       rfl)

theorem wf_completeBooking (db : DB) (c j : OID) (n : Nat) (h : BookingWF db) :
    BookingWF (completeBooking db c j n).1 := by
  unfold completeBooking
  (repeat' split) <;>
    first
    | exact h
    | (refine wf_setBooking db j _ ?_ h
       intro x
       rfl)

theorem wf_createBooking (db : DB) (c e s : OID) (d : Option Nat) (p : Int)
    (no rq : Option String) (h : BookingWF db) :
    BookingWF (createBooking db c e s d p no rq).1 := by
  unfold createBooking
  (repeat' split) <;>
    first
    | exact h
    | (refine wf_append db h _ ?_
       rfl)


theorem pairInv_singleton (db : DB) (b : Booking) (h : db.bookings = [b]) : PairInv db := by
  intro e s
  unfold activeCount
  rw [h]
  by_cases hb : activeForPair b e s = true <;>
    simp [List.countP_cons, hb]

def dbPair : DB :=
  { emptyDB with events := [mkEvent 10 1 none 0], services := [mkService 20 2],
                 bookings := [mkBooking 30 10 20 1 2 10 BStatus.pending] }

/-- C5: when an active (non-cancelled, non-refunded) booking exists for an
(event, service) pair, createBooking never succeeds and leaves the store
unchanged, and fails with Conflict when the earlier guards (existing event
and service, organizer caller, service taking orders) pass; moreover every
modelled operation preserves the invariant that at most one active booking
exists per pair, together with well-formedness of the booking ids. -/
theorem C5_booking_uniqueness (db : DB) (o : Op) (caller e s : OID) (d : Option Nat)
    (p : Int) (no rq : Option String) (ev : Event) (sv : Service)
    (hwf : BookingWF db) (hinv : PairInv db) :
    ((db.bookings.any (fun b => activeForPair b e s)) = true →
       (∀ x, (createBooking db caller e s d p no rq).2 ≠ Res.ok x) ∧
       (createBooking db caller e s d p no rq).1 = db ∧
       (db.findEvent e = some ev → db.findService s = some sv → ev.organizer = caller →
        sv.availability ≠ Avail.notTakingOrders →
        createBooking db caller e s d p no rq = (db, Res.err Err.conflict)))
    ∧ PairInv (runOp db o).1 ∧ BookingWF (runOp db o).1 := by
  refine ⟨?_, ?_, ?_⟩
  · intro hex
    refine ⟨?_, ?_, ?_⟩
    · intro x
      unfold createBooking
      (repeat' split) <;> simp_all
    · unfold createBooking
      (repeat' split) <;> simp_all
    · intro hev hsv horg hav
      unfold createBooking
      rw [hev]
      dsimp only
      rw [hsv]
      dsimp only
      rw [if_neg (by simp [horg]), if_neg (by simpa using hav), if_pos hex]
  · cases o with
    | createRSVP c1 e1 s1 g1 =>
      exact pairInv_of_bookings_eq (bookings_createRSVP db c1 e1 s1 g1) hinv
    | updateRSVP c1 r1 s1 g1 =>
      exact pairInv_of_bookings_eq (bookings_updateRSVP db c1 r1 s1 g1) hinv
    | cancelRSVP c1 r1 =>
      exact pairInv_of_bookings_eq (bookings_cancelRSVP db c1 r1) hinv
    | checkInAttendee c1 r1 n1 =>
      exact pairInv_of_bookings_eq (bookings_checkInAttendee db c1 r1 n1) hinv
    | checkInByCode c1 e1 k1 n1 =>
      exact pairInv_of_bookings_eq (bookings_checkInByCode db c1 e1 k1 n1) hinv
    | createBooking c1 e1 s1 d1 p1 no1 rq1 =>
      exact pairInv_createBooking db c1 e1 s1 d1 p1 no1 rq1 hinv
    | updateBooking c1 b1 p1 no1 rq1 =>
      exact pairInv_updateBooking db c1 b1 p1 no1 rq1 hinv
    | confirmBooking c1 b1 => exact pairInv_confirmBooking db c1 b1 hwf hinv
    | cancelBooking c1 b1 rs1 n1 => exact pairInv_cancelBooking db c1 b1 rs1 n1 hinv
    | completeBooking c1 b1 n1 => exact pairInv_completeBooking db c1 b1 n1 hwf hinv
    | updatePayment c1 b1 a1 m1 t1 no1 n1 =>
      exact pairInv_updatePayment db c1 b1 a1 m1 t1 no1 n1 hinv
    | recordPayment c1 b1 a1 m1 t1 no1 n1 =>
      exact pairInv_recordPayment db c1 b1 a1 m1 t1 no1 n1 hinv
    | createReview c1 b1 r1 t1 n1 =>
      exact pairInv_of_bookings_eq (bookings_createReview db c1 b1 r1 t1 n1) hinv
    | updateReview c1 r1 ra1 t1 n1 =>
      exact pairInv_of_bookings_eq (bookings_updateReview db c1 r1 ra1 t1 n1) hinv
    | deleteReview c1 ad1 r1 =>
      exact pairInv_of_bookings_eq (bookings_deleteReview db c1 ad1 r1) hinv
    | moderateReview r1 a1 =>
      exact pairInv_of_bookings_eq (bookings_moderateReview db r1 a1) hinv
  · cases o with
    | createRSVP c1 e1 s1 g1 =>
      exact wf_mono (bookings_createRSVP db c1 e1 s1 g1)
        (nextId_le_createRSVP db c1 e1 s1 g1) hwf
    | updateRSVP c1 r1 s1 g1 =>
      exact wf_mono (bookings_updateRSVP db c1 r1 s1 g1)
        (nextId_updateRSVP db c1 r1 s1 g1).symm.le hwf
    | cancelRSVP c1 r1 =>
      exact wf_mono (bookings_cancelRSVP db c1 r1) (nextId_cancelRSVP db c1 r1).symm.le hwf
    | checkInAttendee c1 r1 n1 =>
      exact wf_mono (bookings_checkInAttendee db c1 r1 n1)
        (nextId_checkInAttendee db c1 r1 n1).symm.le hwf
    | checkInByCode c1 e1 k1 n1 =>
      exact wf_mono (bookings_checkInByCode db c1 e1 k1 n1)
        (nextId_checkInByCode db c1 e1 k1 n1).symm.le hwf
    | createBooking c1 e1 s1 d1 p1 no1 rq1 =>
      exact wf_createBooking db c1 e1 s1 d1 p1 no1 rq1 hwf
    | updateBooking c1 b1 p1 no1 rq1 => exact wf_updateBooking db c1 b1 p1 no1 rq1 hwf
    | confirmBooking c1 b1 => exact wf_confirmBooking db c1 b1 hwf
    | cancelBooking c1 b1 rs1 n1 => exact wf_cancelBooking db c1 b1 rs1 n1 hwf
    | completeBooking c1 b1 n1 => exact wf_completeBooking db c1 b1 n1 hwf
    | updatePayment c1 b1 a1 m1 t1 no1 n1 =>
      exact wf_updatePayment db c1 b1 a1 m1 t1 no1 n1 hwf
    | recordPayment c1 b1 a1 m1 t1 no1 n1 =>
      exact wf_recordPayment db c1 b1 a1 m1 t1 no1 n1 hwf
    | createReview c1 b1 r1 t1 n1 =>
      exact wf_mono (bookings_createReview db c1 b1 r1 t1 n1)
        (nextId_le_createReview db c1 b1 r1 t1 n1) hwf
    | updateReview c1 r1 ra1 t1 n1 =>
      exact wf_mono (bookings_updateReview db c1 r1 ra1 t1 n1)
        (nextId_updateReview db c1 r1 ra1 t1 n1).symm.le hwf
    | deleteReview c1 ad1 r1 =>
      exact wf_mono (bookings_deleteReview db c1 ad1 r1)
        (nextId_deleteReview db c1 ad1 r1).symm.le hwf
    | moderateReview r1 a1 =>
      exact wf_mono (bookings_moderateReview db r1 a1)
        (nextId_moderateReview db r1 a1).symm.le hwf

/-- Witness for C5: with a pending booking for (event 10, service 20), a
second createBooking for the pair fails with Conflict, and the invariant is
preserved by a further operation. -/
theorem C5_booking_uniqueness_witness :
    (dbPair.bookings.any (fun b => activeForPair b 10 20)) = true ∧
    createBooking dbPair 1 10 20 none 10 none none = (dbPair, Res.err Err.conflict) ∧
    PairInv (runOp dbPair (Op.confirmBooking 2 30)).1 := by
  have h := C5_booking_uniqueness dbPair (Op.confirmBooking 2 30) 1 10 20 none 10 none none
    (mkEvent 10 1 none 0) (mkService 20 2) (by constructor <;> decide)
    (pairInv_singleton dbPair (mkBooking 30 10 20 1 2 10 BStatus.pending) rfl)
  exact ⟨by decide, (h.1 (by decide)).2.2 (by decide) (by decide) rfl (by decide), h.2.1⟩


/-- C4 counterexample: the claim says no operation changes the status of a
booking in a terminal state, refunded included.  Cancel on a refunded
booking succeeds and changes its status to cancelled: the only state guard
of cancelBooking is status equal to completed. -/
theorem C4_counterexample :
    let db0 : DB := { emptyDB with bookings := [mkBooking 30 10 20 1 2 10 BStatus.refunded] }
    (cancelBooking db0 1 30 none 5).2 = Res.ok 30 ∧
    ((cancelBooking db0 1 30 none 5).1.findBooking 30).map (fun x => x.status) =
      some BStatus.cancelled := by
  decide

/-- C4 amended: no modelled operation changes the status of a booking that
is completed or cancelled (refunded is not protected: Cancel moves it to
cancelled); Cancel on a completed booking by either party fails with
InvalidState and changes nothing; Cancel on a pending booking by either
party succeeds, records cancelledBy, cancelledAt and the reason, and
notifies the other party. -/
theorem C4_terminal_and_cancel (db : DB) (o : Op) (caller i : OID) (b : Booking)
    (reason : Option String) (now : Nat) (hfind : db.findBooking i = some b) :
    ((b.status = BStatus.completed ∨ b.status = BStatus.cancelled) →
       ((runOp db o).1.findBooking i).map (fun x => x.status) = some b.status)
    ∧ (b.status = BStatus.completed → (b.organizer = caller ∨ b.vendor = caller) →
       cancelBooking db caller i reason now = (db, Res.err Err.invalidState))
    ∧ (b.status = BStatus.pending → (b.organizer = caller ∨ b.vendor = caller) →
       (cancelBooking db caller i reason now).2 = Res.ok i ∧
       ((cancelBooking db caller i reason now).1.findBooking i).map
           (fun x => (x.status, x.cancelledBy, x.cancelledAt, x.cancellationReason)) =
         some (BStatus.cancelled, some caller, some now, reason) ∧
       (cancelBooking db caller i reason now).1.notifs =
         db.notifs ++ [{ recipient := if b.organizer == caller then b.vendor else b.organizer,
                         kind := "booking", title := "Booking Cancelled" }]) := by
  refine ⟨?_, ?_, ?_⟩
  · intro hterm
    cases o with
    | createRSVP c e s g =>
      rw [runOp, findBooking_of_bookings_eq (bookings_createRSVP db c e s g) i, hfind]
      rfl
    | updateRSVP c r s g =>
      rw [runOp, findBooking_of_bookings_eq (bookings_updateRSVP db c r s g) i, hfind]
      rfl
    | cancelRSVP c r =>
      rw [runOp, findBooking_of_bookings_eq (bookings_cancelRSVP db c r) i, hfind]
      rfl
    | checkInAttendee c r n =>
      rw [runOp, findBooking_of_bookings_eq (bookings_checkInAttendee db c r n) i, hfind]
      rfl
    | checkInByCode c e k n =>
      rw [runOp, findBooking_of_bookings_eq (bookings_checkInByCode db c e k n) i, hfind]
      rfl
    | createBooking c e s d p no rq => exact status_pres_createBooking db c e s d p no rq i b hfind
    | updateBooking c bk p no rq => exact status_pres_updateBooking db c bk p no rq i b hfind
    | confirmBooking c bk => exact status_pres_confirmBooking db c bk i b hfind hterm
    | cancelBooking c bk rs n => exact status_pres_cancelBooking db c bk rs n i b hfind hterm
    | completeBooking c bk n => exact status_pres_completeBooking db c bk n i b hfind hterm
    | updatePayment c bk a m t no n => exact status_pres_updatePayment db c bk a m t no n i b hfind
    | recordPayment c bk a m t no n => exact status_pres_recordPayment db c bk a m t no n i b hfind
    | createReview c bk r t n =>
      rw [runOp, findBooking_of_bookings_eq (bookings_createReview db c bk r t n) i, hfind]
      rfl
    | updateReview c r ra t n =>
      rw [runOp, findBooking_of_bookings_eq (bookings_updateReview db c r ra t n) i, hfind]
      rfl
    | deleteReview c ad r =>
      rw [runOp, findBooking_of_bookings_eq (bookings_deleteReview db c ad r) i, hfind]
      rfl
    | moderateReview r a =>
      rw [runOp, findBooking_of_bookings_eq (bookings_moderateReview db r a) i, hfind]
      rfl
  · intro hcomp hrole
    have hauth : (b.organizer != caller && b.vendor != caller) = false := by
      rcases hrole with h | h <;> simp [h]
    unfold cancelBooking
    rw [hfind]
    dsimp only
    rw [if_neg (by simp [hauth]), if_pos (by simp [hcomp])]
  · intro hpend hrole
    have hauth : (b.organizer != caller && b.vendor != caller) = false := by
      rcases hrole with h | h <;> simp [h]
    have hid : b.id = i := DB.findBooking_id hfind
    unfold cancelBooking
    rw [hfind]
    dsimp only
    rw [if_neg (by simp [hauth]), if_neg (by simp [hpend])]
    refine ⟨rfl, ?_, rfl⟩
    rw [findBooking_notify]
    rw [DB.findBooking_setBooking db i i]
    · rw [hfind]
      simp [hid]
    · intro x
      rfl

/-- Witness for C4: cancelling a completed booking fails with InvalidState
and leaves the store unchanged. -/
theorem C4_terminal_and_cancel_witness :
    cancelBooking { emptyDB with bookings := [mkBooking 30 10 20 1 2 10 BStatus.completed] }
        1 30 none 5 =
      ({ emptyDB with bookings := [mkBooking 30 10 20 1 2 10 BStatus.completed] },
       Res.err Err.invalidState) :=
  (C4_terminal_and_cancel
      { emptyDB with bookings := [mkBooking 30 10 20 1 2 10 BStatus.completed] }
      (Op.confirmBooking 1 30) 1 30 (mkBooking 30 10 20 1 2 10 BStatus.completed)
      none 5 (by decide)).2.1 rfl (Or.inl rfl)


/-- C1 counterexample: the claim says paymentStatus equals unpaid whenever the
sum of recorded payment amounts is 0.  On a booking with priceAgreed 10, an
organizer payment of 5 followed by one of -5 (updatePayment validates
nothing) leaves the sum at 0 while paymentStatus stays partial: the source
has no branch resetting the status to unpaid. -/
theorem C1_counterexample :
    let db2 := (updatePayment (updatePayment dbPay 1 30 5 none none none 0).1
                 1 30 (-5) none none none 1).1
    (db2.findBooking 30).map
        (fun x => (paymentsTotal x.payments, x.totalPaid, x.paymentStatus)) =
      some (0, 0, PayStatus.partPaid) := by
  decide

/-- C1 amended: after every successful RecordPayment call (organizer-facing
updatePayment for any amount, vendor-facing recordPayment for a positive
amount) the payment entry is appended to the payments array, the stored
totalPaid equals the sum of the amounts of all recorded payments, and
paymentStatus is recomputed as paid when totalPaid reaches priceAgreed
(checked first), partial when totalPaid is positive, and is otherwise left
at its previous value - it is never reset to unpaid. -/
theorem C1_payment_accounting (db : DB) (caller bid : OID) (amount : Int)
    (m t no : Option String) (now : Nat) (b : Booking)
    (hfind : db.findBooking bid = some b) :
    (b.organizer = caller →
       (updatePayment db caller bid amount m t no now).2 = Res.ok bid ∧
       ((updatePayment db caller bid amount m t no now).1.findBooking bid).map
           (fun x => (x.payments, x.totalPaid, x.paymentStatus)) =
         some (b.payments ++ [mkPayment amount m t no now],
               paymentsTotal (b.payments ++ [mkPayment amount m t no now]),
               payStatusOf (paymentsTotal (b.payments ++ [mkPayment amount m t no now]))
                 b.priceAgreed b.paymentStatus))
    ∧ (b.vendor = caller → 0 < amount →
       (recordPayment db caller bid amount m t no now).2 = Res.ok bid ∧
       ((recordPayment db caller bid amount m t no now).1.findBooking bid).map
           (fun x => (x.payments, x.totalPaid, x.paymentStatus)) =
         some (b.payments ++ [mkPayment amount (some (m.getD "other")) t no now],
               paymentsTotal (b.payments ++ [mkPayment amount (some (m.getD "other")) t no now]),
               payStatusOf
                 (paymentsTotal (b.payments ++ [mkPayment amount (some (m.getD "other")) t no now]))
                 b.priceAgreed b.paymentStatus)) := by
  have hid : b.id = bid := DB.findBooking_id hfind
  constructor
  · intro horg
    have hbne : (b.organizer != caller) = false := by simp [horg]
    unfold updatePayment
    rw [hfind]
    simp only [hbne, Bool.false_eq_true, if_false]
    refine ⟨by trivial, ?_⟩
    rw [findBooking_notify, DB.findBooking_setBooking db bid bid]
    · rw [hfind]
      simp [hid, mkPayment]
    · intro x
      rfl
  · intro hven hpos
    have hbne : (b.vendor != caller) = false := by simp [hven]
    unfold recordPayment
    rw [if_neg (not_le.mpr hpos), hfind]
    simp only [hbne, Bool.false_eq_true, if_false]
    refine ⟨by trivial, ?_⟩
    rw [findBooking_notify, DB.findBooking_setBooking db bid bid]
    · rw [hfind]
      simp [hid, mkPayment]
    · intro x
      rfl

/-- Witness for C1: a first organizer payment of 5 on a fresh booking with
priceAgreed 10 yields payments [5], totalPaid 5 and status partial. -/
theorem C1_payment_accounting_witness :
    ((updatePayment dbPay 1 30 5 none none none 0).1.findBooking 30).map
        (fun x => (x.payments, x.totalPaid, x.paymentStatus)) =
      some ([mkPayment 5 none none none 0], 5, PayStatus.partPaid) := by
  have h := (C1_payment_accounting dbPay 1 30 5 none none none 0
      (mkBooking 30 10 20 1 2 10 BStatus.pending) (by decide)).1 rfl
  rw [h.2]
  decide

/-- C10: the organizer entry point updatePayment performs no validation of
the amount - any amount, zero or negative included, is accepted, appended
to the payments array and folded into totalPaid (possibly lowering it) and
paymentStatus; only the vendor entry point recordPayment rejects an amount
less or equal to 0 with a validation error, before any other check. -/
theorem C10_payment_validation (db : DB) (caller bid : OID) (amount : Int)
    (m t no : Option String) (now : Nat) (b : Booking)
    (hfind : db.findBooking bid = some b) :
    (b.organizer = caller →
       (updatePayment db caller bid amount m t no now).2 = Res.ok bid ∧
       ((updatePayment db caller bid amount m t no now).1.findBooking bid).map
           (fun x => (x.payments, x.totalPaid, x.paymentStatus)) =
         some (b.payments ++ [mkPayment amount m t no now],
               paymentsTotal (b.payments ++ [mkPayment amount m t no now]),
               payStatusOf (paymentsTotal (b.payments ++ [mkPayment amount m t no now]))
                 b.priceAgreed b.paymentStatus))
    ∧ (amount ≤ 0 →
        recordPayment db caller bid amount m t no now = (db, Res.err Err.validationErr))
    ∧ (0 < amount →
        (recordPayment db caller bid amount m t no now).2 ≠ Res.err Err.validationErr) := by
  have hid : b.id = bid := DB.findBooking_id hfind
  refine ⟨?_, ?_, ?_⟩
  · intro horg
    have hbne : (b.organizer != caller) = false := by simp [horg]
    unfold updatePayment
    rw [hfind]
    simp only [hbne, Bool.false_eq_true, if_false]
    refine ⟨by trivial, ?_⟩
    rw [findBooking_notify, DB.findBooking_setBooking db bid bid]
    · rw [hfind]
      simp [hid, mkPayment]
    · intro x
      rfl
  · intro hle
    unfold recordPayment
    rw [if_pos hle]
  · intro hpos
    unfold recordPayment
    rw [if_neg (not_le.mpr hpos)]
    dsimp only
    (repeat' split) <;> simp

/-- Witness for C10: an organizer call with amount -5 succeeds while the
vendor call with amount -5 fails with the validation error. -/
theorem C10_payment_validation_witness :
    (updatePayment dbPay 1 30 (-5) none none none 0).2 = Res.ok 30 ∧
    recordPayment dbPay 2 30 (-5) none none none 0 = (dbPay, Res.err Err.validationErr) := by
  have h := C10_payment_validation dbPay 1 30 (-5) none none none 0
    (mkBooking 30 10 20 1 2 10 BStatus.pending) (by decide)
  have h2 := C10_payment_validation dbPay 2 30 (-5) none none none 0
    (mkBooking 30 10 20 1 2 10 BStatus.pending) (by decide)
  exact ⟨(h.1 rfl).1, h2.2.1 (by decide)⟩

/-- C3 counterexample: the claim says a request whose status is not going is
never rejected for capacity.  On a full event (maxAttendees 1, one going
RSVP, currentAttendees 1), a createRSVP with status not_going is rejected
with the capacity error, because the createRSVP pre-check ignores the
requested status entirely. -/
theorem C3_counterexample :
    createRSVP dbCap 4 10 RStatus.notGoing 0 = (dbCap, Res.err Err.capacityExceeded) := by
  decide

/-- C3 amended: updateRSVP fails with CapacityExceeded exactly when the
delta of (1 + guestsCount) totals is positive, maxAttendees is truthy and
currentAttendees + delta exceeds it, and in particular never for a request
whose status is not going; createRSVP (the upsert entry point) instead
applies the guard currentAttendees + 1 + guestsCount > maxAttendees
regardless of the requested status and of any existing RSVP. -/
theorem C3_upsert_capacity (db : DB) (caller eventId rsvpId : OID) (st : RStatus)
    (stU : Option RStatus) (g : Nat) (gU : Option Nat) (ev ev2 : Event) (r : RSVP) :
    (db.findEvent eventId = some ev →
      ((createRSVP db caller eventId st g).2 = Res.err Err.capacityExceeded ↔
        capHit ev.maxAttendees (ev.currentAttendees + 1 + g) = true))
    ∧ (db.findRSVP rsvpId = some r → r.attendee = caller →
       db.findEvent r.event = some ev2 →
        (((updateRSVP db caller rsvpId stU gU).2 = Res.err Err.capacityExceeded ↔
          (0 < rsvpDelta r stU gU ∧
           capHitI ev2.maxAttendees
             ((ev2.currentAttendees : Int) + rsvpDelta r stU gU) = true))
         ∧ (stU ≠ some RStatus.going →
             (updateRSVP db caller rsvpId stU gU).2 ≠ Res.err Err.capacityExceeded))) := by
  constructor
  · intro hev
    unfold createRSVP
    rw [hev]
    by_cases hc : capHit ev.maxAttendees (ev.currentAttendees + 1 + g) = true
    · simp [hc]
    · simp only [hc, Bool.false_eq_true, if_false]
      split <;> simp [hc]
  · intro hr hatt hev2
    have hbne : (r.attendee != caller) = false := by simp [hatt]
    have hiff : ((updateRSVP db caller rsvpId stU gU).2 = Res.err Err.capacityExceeded ↔
        (0 < rsvpDelta r stU gU ∧
         capHitI ev2.maxAttendees
           ((ev2.currentAttendees : Int) + rsvpDelta r stU gU) = true)) := by
      unfold updateRSVP
      rw [hr]
      simp only [hbne, Bool.false_eq_true, if_false]
      rw [hev2]
      dsimp only
      split
      · next hcond =>
        simp only [Bool.and_eq_true, decide_eq_true_iff] at hcond
        simp [hcond]
      · next hcond =>
        simp only [Bool.and_eq_true, decide_eq_true_iff, not_and] at hcond
        constructor
        · intro hbad
          exact absurd hbad (by simp)
        · intro hrhs
          exact absurd (hcond hrhs.1) (by simp [hrhs.2])
    refine ⟨hiff, ?_⟩
    intro hne hbad
    rcases hiff.mp hbad with ⟨hpos, _⟩
    have hle : rsvpDelta r stU gU ≤ 0 := by
      unfold rsvpDelta
      dsimp only
      rw [if_neg (by simp [hne])]
      split <;> omega
    omega

/-- Witness for C3: on the full event, the createRSVP capacity
characterization holds and an update moving the existing RSVP to maybe is
not rejected for capacity. -/
theorem C3_upsert_capacity_witness :
    ((createRSVP dbCap 3 10 RStatus.notGoing 0).2 = Res.err Err.capacityExceeded ↔
      capHit (mkEvent 10 1 (some 1) 1).maxAttendees
        ((mkEvent 10 1 (some 1) 1).currentAttendees + 1 + 0) = true) ∧
    (updateRSVP dbCap 3 40 (some RStatus.maybe) none).2 ≠ Res.err Err.capacityExceeded := by
  have h := C3_upsert_capacity dbCap 3 10 40 RStatus.notGoing (some RStatus.maybe) 0 none
    (mkEvent 10 1 (some 1) 1) (mkEvent 10 1 (some 1) 1) (mkRSVP 40 10 3 RStatus.going 0)
  exact ⟨h.1 (by decide), (h.2 (by decide) rfl (by decide)).2 (by decide)⟩

theorem DB.findRSVP_id {db : DB} {i : OID} {r : RSVP}
    (h : db.findRSVP i = some r) : r.id = i := by
  have := List.find?_some h
  simpa using this

/-- C8 counterexample: the claim says check-in by rsvpId on an already
checked-in RSVP fails with AlreadyCheckedIn.  checkInAttendee has no such
guard: it succeeds and silently overwrites checkedInAt. -/
theorem C8_counterexample :
    (checkInAttendee dbChk 1 40 99).2 = Res.ok 40 ∧
    ((checkInAttendee dbChk 1 40 99).1.findRSVP 40).map
        (fun x => (x.checkedIn, x.checkedInAt)) = some (true, some 99) := by
  decide

/-- C8 amended: only checkInByCode guards against double check-in, failing
with AlreadyCheckedIn and changing nothing; checkInAttendee (by rsvpId)
always succeeds for an authorized organizer or co-organizer, setting
checkedIn and overwriting checkedInAt with the current time even when the
RSVP was already checked in; both paths set checkedIn and checkedInAt on a
fresh check-in. -/
theorem C8_checkin (db : DB) (caller rsvpId eventId : OID) (code : String) (now : Nat)
    (r : RSVP) (ev : Event) :
    (db.findRSVP rsvpId = some r → db.findEvent r.event = some ev →
     (ev.organizer == caller || ev.coOrganizers.contains caller) = true →
       (checkInAttendee db caller rsvpId now).2 = Res.ok rsvpId ∧
       ((checkInAttendee db caller rsvpId now).1.findRSVP rsvpId).map
           (fun x => (x.checkedIn, x.checkedInAt)) = some (true, some now))
    ∧ (db.findEvent eventId = some ev →
       (ev.organizer == caller || ev.coOrganizers.contains caller) = true →
       db.rsvps.find? (fun x => x.event == eventId && x.checkInCode == upperStr code) =
         some r →
       (r.checkedIn = true →
          checkInByCode db caller eventId code now = (db, Res.err Err.alreadyCheckedIn))
       ∧ (r.checkedIn = false → db.findRSVP r.id = some r →
            (checkInByCode db caller eventId code now).2 = Res.ok r.id ∧
            ((checkInByCode db caller eventId code now).1.findRSVP r.id).map
                (fun x => (x.checkedIn, x.checkedInAt)) = some (true, some now))) := by
  constructor
  · intro hr hev hauth
    have hid : r.id = rsvpId := DB.findRSVP_id hr
    unfold checkInAttendee
    rw [hr]
    dsimp only
    rw [hev]
    dsimp only
    rw [if_pos hauth]
    refine ⟨rfl, ?_⟩
    rw [findRSVP_rsvpPostSave, DB.findRSVP_setRSVP db rsvpId rsvpId]
    · rw [hr]
      simp [hid]
    · intro x
      rfl
  · intro hev hauth hfr
    unfold checkInByCode
    rw [hev]
    dsimp only
    rw [if_pos hauth, hfr]
    dsimp only
    constructor
    · intro hci
      rw [if_pos hci]
    · intro hci hr2
      rw [if_neg (by simp [hci])]
      refine ⟨rfl, ?_⟩
      rw [findRSVP_rsvpPostSave, DB.findRSVP_setRSVP db r.id r.id]
      · rw [hr2]
        simp
      · intro x
        rfl

/-- Witness for C8: on an already checked-in RSVP, check-in by id succeeds
while check-in by code fails with AlreadyCheckedIn. -/
theorem C8_checkin_witness :
    (checkInAttendee dbChk 1 40 99).2 = Res.ok 40 ∧
    checkInByCode dbChk 1 10 "10-3" 99 = (dbChk, Res.err Err.alreadyCheckedIn) := by
  have h := C8_checkin dbChk 1 40 10 "10-3" 99
    ({ (mkRSVP 40 10 3 RStatus.going 0) with checkedIn := true, checkedInAt := some 7 })
    (mkEvent 10 1 none 1)
  exact ⟨(h.1 (by decide) (by decide) (by decide)).1,
         (h.2 (by decide) (by decide) (by decide)).1 rfl⟩


/-- C2: the capacity invariant of the claim is violated by the code.  Event
with maxAttendees 2: RSVP A (going, 1 guest) succeeds; the rsvp post-save
hook recounts currentAttendees as the number of going RSVP documents (1),
ignoring guests; RSVP B (going, 0 guests) then passes the capacity check
1 + 1 + 0 = 2 and succeeds, making the going sum of (1 + guestsCount)
equal to 3, above maxAttendees = 2.  The spec scenario requires B to fail
with CapacityExceeded. -/
theorem C2_capacity_invariant_violated :
    let db0 : DB := { emptyDB with events := [mkEvent 10 1 (some 2) 0] }
    let step1 := createRSVP db0 3 10 RStatus.going 1
    let step2 := createRSVP step1.1 4 10 RStatus.going 0
    step1.2 = Res.ok 100 ∧ step2.2 = Res.ok 101 ∧
    (step2.1.findEvent 10).map (fun e => e.maxAttendees) = some (some 2) ∧
    goingSum step2.1 10 = 3 := by
  decide

/-- C6: the claim says rating aggregates are recomputed synchronously after
every review edit, delete or moderation.  The controllers use query-style
findByIdAndUpdate / findByIdAndDelete, which do not run the document
save / deleteOne middleware of the review schema, so only createReview
recomputes.  Editing the only (five-star) review of a service down to
rating 1 succeeds, yet the service and vendor aggregates still read
ratingAverage 5, totalRatings 1, while recomputing per the aggregation
would give ratingAverage 1 (and 5 is not 1). -/
theorem C6_stale_rating_aggregates :
    (updateReview dbRev 1 50 (some 1) none 0).2 = Res.ok 50 ∧
    (dbRev2.findReview 50).map (fun r => (r.rating, r.isApproved)) = some (1, true) ∧
    (dbRev2.findService 20).map (fun s => (s.ratingAverage, s.totalRatings)) =
      some (5, 1) ∧
    (dbRev2.findUser 2).map (fun u => (u.ratingAverage, u.totalRatings)) = some (5, 1) ∧
    round1 (ratingAvg (approvedReviewsFor dbRev2 20)) = 1 ∧
    (approvedReviewsFor dbRev2 20).length = 1 ∧
    (5 : Rat) ≠ 1 := by
  refine ⟨by decide, by decide, by decide, by decide, ?_, by decide, by decide⟩
  have ha : approvedReviewsFor dbRev2 20 =
      [{ (mkReview 50 30 20 2 1 5) with rating := 1 }] := by decide
  rw [ha]
  simp [ratingAvg, round1, round_eq]

theorem reviewInv_of_reviews_eq {db db2 : DB} (h : db2.reviews = db.reviews)
    (hi : ReviewInv db) : ReviewInv db2 := by
  intro bk
  unfold reviewCount
  rw [h]
  exact hi bk

theorem reviewInv_setReview (db : DB) (j : OID) (g : Review → Review)
    (hg : ∀ x, (g x).booking = x.booking) (h : ReviewInv db) :
    ReviewInv (db.setReview j g) := by
  intro bk
  refine Nat.le_trans ?_ (h bk)
  apply countP_map_le
  intro x hx hxx
  by_cases hb : (x.id == j) = true
  · rw [if_pos hb] at hxx
    rw [show ((g x).booking == bk) = (x.booking == bk) by rw [hg]] at hxx
    exact hxx
  · rw [if_neg hb] at hxx
    exact hxx

theorem reviewInv_append (db : DB) (nr : Review) (b0 : OID) (hb : nr.booking = b0)
    (h : ReviewInv db) (hno : (db.reviews.any (fun r => r.booking == b0)) = false) :
    ∀ bk, ((db.reviews ++ [nr]).countP (fun r => r.booking == bk)) ≤ 1 := by
  intro bk
  rw [List.countP_append]
  by_cases hbk : bk = b0
  · subst hbk
    have h0 : db.reviews.countP (fun r => r.booking == bk) = 0 := by
      rw [List.countP_eq_zero]
      intro a ha
      simpa using List.any_eq_false.mp hno a ha
    rw [h0, Nat.zero_add]
    by_cases hnr : (nr.booking == bk) = true <;> simp [List.countP_cons, hnr]
  · have h1 : ([nr].countP (fun r => r.booking == bk)) = 0 := by
      rw [List.countP_eq_zero]
      intro a ha
      have ha2 : a = nr := by simpa using ha
      subst ha2
      intro hbad
      apply hbk
      have hb2 : a.booking = bk := by simpa using hbad
      rw [hb] at hb2
      exact hb2.symm
    rw [h1, Nat.add_zero]
    exact h bk

theorem reviewInv_createReview (db : DB) (c bid : OID) (rating : Nat) (txt : String)
    (n : Nat) (h : ReviewInv db) : ReviewInv (createReview db c bid rating txt n).1 := by
  unfold createReview
  (repeat' split) <;>
    first
    | exact h
    | (rename_i hno
       intro bk
       unfold reviewCount
       simp only [DB.setUser, notify]
       rw [reviews_updateServiceRatingFn]
       exact reviewInv_append db _ bid rfl h (by simpa using hno) bk)

theorem reviewInv_updateReview (db : DB) (c r : OID) (ra : Option Nat)
    (t : Option String) (n : Nat) (h : ReviewInv db) :
    ReviewInv (updateReview db c r ra t n).1 := by
  unfold updateReview
  (repeat' split) <;>
    first
    | exact h
    | (refine reviewInv_setReview db r _ ?_ h
       intro x
       rfl)

theorem reviewInv_moderateReview (db : DB) (r : OID) (a : Bool) (h : ReviewInv db) :
    ReviewInv (moderateReview db r a).1 := by
  unfold moderateReview
  (repeat' split) <;>
    first
    | exact h
    | (refine reviewInv_setReview db r _ ?_ h
       intro x
       rfl)

theorem reviewInv_deleteReview (db : DB) (c : OID) (ad : Bool) (r : OID)
    (h : ReviewInv db) : ReviewInv (deleteReview db c ad r).1 := by
  unfold deleteReview
  (repeat' split) <;>
    first
    | exact h
    | (intro bk
       exact Nat.le_trans (countP_filter_le _ _ _) (h bk))


/-- C7: createReview succeeds exactly when the booking exists, the caller is
its organizer, the booking is completed and no review for it exists; a
missing booking yields NotFound, a non-organizer caller Forbidden, a
non-completed booking InvalidState (organizer check first), an existing
review Conflict; on success exactly one review for the booking is appended,
and every modelled operation preserves the at-most-one-review-per-booking
invariant. -/
theorem C7_review_create (db : DB) (o : Op) (caller bid : OID) (rating : Nat)
    (txt : String) (now : Nat) (b : Booking) (hinv : ReviewInv db) :
    (db.findBooking bid = none →
       createReview db caller bid rating txt now = (db, Res.err Err.notFound))
    ∧ (db.findBooking bid = some b →
        (b.organizer ≠ caller →
           createReview db caller bid rating txt now = (db, Res.err Err.forbidden))
        ∧ (b.organizer = caller → b.status ≠ BStatus.completed →
           createReview db caller bid rating txt now = (db, Res.err Err.invalidState))
        ∧ (b.organizer = caller → b.status = BStatus.completed →
           (db.reviews.any (fun r => r.booking == bid)) = true →
           createReview db caller bid rating txt now = (db, Res.err Err.conflict))
        ∧ (b.organizer = caller → b.status = BStatus.completed →
           (db.reviews.any (fun r => r.booking == bid)) = false →
           (createReview db caller bid rating txt now).2 = Res.ok db.nextId ∧
           (createReview db caller bid rating txt now).1.reviews =
             db.reviews ++ [{ id := db.nextId, booking := bid, service := b.service,
                              vendor := b.vendor, reviewer := caller, event := b.event,
                              rating := rating, reviewText := txt, isApproved := true,
                              isFlagged := false, createdAt := now }]))
    ∧ ReviewInv (runOp db o).1 := by
  refine ⟨?_, ?_, ?_⟩
  · intro hne
    unfold createReview
    rw [hne]
  · intro hfind
    unfold createReview
    rw [hfind]
    dsimp only
    refine ⟨?_, ?_, ?_, ?_⟩
    · intro hne
      rw [if_pos (by simpa using hne)]
    · intro horg hst
      rw [if_neg (by simp [horg]), if_pos (by simpa using hst)]
    · intro horg hst hany
      rw [if_neg (by simp [horg]), if_neg (by simp [hst]), if_pos hany]
    · intro horg hst hany
      rw [if_neg (by simp [horg]), if_neg (by simp [hst]), if_neg (by simp [hany])]
      refine ⟨rfl, ?_⟩
      simp only [DB.setUser, notify]
      rw [reviews_updateServiceRatingFn]
  · cases o with
    | createRSVP c1 e1 s1 g1 =>
      exact reviewInv_of_reviews_eq (reviews_createRSVP db c1 e1 s1 g1) hinv
    | updateRSVP c1 r1 s1 g1 =>
      exact reviewInv_of_reviews_eq (reviews_updateRSVP db c1 r1 s1 g1) hinv
    | cancelRSVP c1 r1 =>
      exact reviewInv_of_reviews_eq (reviews_cancelRSVP db c1 r1) hinv
    | checkInAttendee c1 r1 n1 =>
      exact reviewInv_of_reviews_eq (reviews_checkInAttendee db c1 r1 n1) hinv
    | checkInByCode c1 e1 k1 n1 =>
      exact reviewInv_of_reviews_eq (reviews_checkInByCode db c1 e1 k1 n1) hinv
    | createBooking c1 e1 s1 d1 p1 no1 rq1 =>
      exact reviewInv_of_reviews_eq (reviews_createBooking db c1 e1 s1 d1 p1 no1 rq1) hinv
    | updateBooking c1 b1 p1 no1 rq1 =>
      exact reviewInv_of_reviews_eq (reviews_updateBooking db c1 b1 p1 no1 rq1) hinv
    | confirmBooking c1 b1 =>
      exact reviewInv_of_reviews_eq (reviews_confirmBooking db c1 b1) hinv
    | cancelBooking c1 b1 rs1 n1 =>
      exact reviewInv_of_reviews_eq (reviews_cancelBooking db c1 b1 rs1 n1) hinv
    | completeBooking c1 b1 n1 =>
      exact reviewInv_of_reviews_eq (reviews_completeBooking db c1 b1 n1) hinv
    | updatePayment c1 b1 a1 m1 t1 no1 n1 =>
      exact reviewInv_of_reviews_eq (reviews_updatePayment db c1 b1 a1 m1 t1 no1 n1) hinv
    | recordPayment c1 b1 a1 m1 t1 no1 n1 =>
      exact reviewInv_of_reviews_eq (reviews_recordPayment db c1 b1 a1 m1 t1 no1 n1) hinv
    | createReview c1 b1 r1 t1 n1 => exact reviewInv_createReview db c1 b1 r1 t1 n1 hinv
    | updateReview c1 r1 ra1 t1 n1 => exact reviewInv_updateReview db c1 r1 ra1 t1 n1 hinv
    | deleteReview c1 ad1 r1 => exact reviewInv_deleteReview db c1 ad1 r1 hinv
    | moderateReview r1 a1 => exact reviewInv_moderateReview db r1 a1 hinv

/-- Witness for C7: creating a review on a completed booking succeeds and a
second createReview for the same booking fails with Conflict. -/
theorem C7_review_create_witness :
    (createReview dbRev0 1 30 5 "well done" 0).2 = Res.ok 100 ∧
    (createReview dbRev0 1 30 5 "well done" 0).1.reviews =
      [{ id := 100, booking := 30, service := 20, vendor := 2, reviewer := 1, event := 10,
         rating := 5, reviewText := "well done", isApproved := true, isFlagged := false,
         createdAt := 0 }] ∧
    (createReview (createReview dbRev0 1 30 5 "well done" 0).1 1 30 4 "second try" 1).2 =
      Res.err Err.conflict := by
  have hinv0 : ReviewInv dbRev0 := by
    intro bk
    simp [reviewCount, dbRev0, emptyDB]
  have h := C7_review_create dbRev0 (Op.cancelRSVP 3 40) 1 30 5 "well done" 0
    (mkBooking 30 10 20 1 2 10 BStatus.completed) hinv0
  have hs := (h.2.1 (by decide)).2.2.2 rfl rfl (by decide)
  have h2 := C7_review_create (createReview dbRev0 1 30 5 "well done" 0).1
    (Op.cancelRSVP 3 40) 1 30 4 "second try" 1
    (mkBooking 30 10 20 1 2 10 BStatus.completed)
    (reviewInv_createReview dbRev0 1 30 5 "well done" 0 hinv0)
  refine ⟨hs.1, hs.2, ?_⟩
  have hc := (h2.2.1 ?_).2.2.1 rfl rfl ?_
  · rw [hc]
  · rw [findBooking_of_bookings_eq (bookings_createReview dbRev0 1 30 5 "well done" 0) 30]
    decide
  · rw [hs.2]
    decide

end Festivo
